import Mathlib

/-!
# Credential commitment and selective disclosure (Nitshacks)

A shallow embedding of the credential logic of `src/app.js` and `src/zkg-utils.js`:
the status resolver (`isExpired`, `getCredentialStatus`), the commitment generator
(`generateCommitment`), the disclosure proof generator (`generateZKProof`,
`createSelectiveDisclosureProof`), the verification wrapper (`verifyZKProof`), the handlers
of the disclosure, issuance and verification forms, and the navigation guard.

Conventions of the embedding.

* JavaScript primitive values are the type `JSVal`.  A `Number` is an integer (`Int`): every
  number the program handles is a count of seconds or milliseconds.  On such values the
  comparison `Number(e) * 1000 < Date.now()` computed in IEEE doubles agrees with the integer
  comparison: `Date.now()` is an integer below `2 ^ 53`, a product below `2 ^ 53` is exact, and a
  product at or above `2 ^ 53` rounds to a double at or above `2 ^ 53`.  The Numbers meant are
  the safe integers (absolute value below `2 ^ 53`), where every such count lies and where
  `Number.prototype.toString` is the plain decimal text.
* A JavaScript string is a Lean `String` (`ethers.utils.toUtf8Bytes` rejects strings with unpaired
  surrogates, so the strings that reach the hash are sequences of Unicode scalar values).
* An object is the list of its property definitions in evaluation order, a later definition of a
  key overriding an earlier one, which is how an object literal with spreads is evaluated.
* The clock (`Date.now()`), the random draw (`ethers.utils.randomBytes`) and the hash
  (`ethers.utils.keccak256`) are explicit parameters.
* The ledger contract is not among the sources.  A call of one of its methods is a parameter:
  the outcome of the awaited call, a value or a thrown error with a message; for `verifyZKProof`
  the call resolves to any value or rejects with any value.  Where a property
  depends on what the ledger does with a proof, the ledger is the one the specification
  describes, in definitions marked as modelled from the spec.
-/

namespace Nitshacks

/-! ## JavaScript values -/

/-- A JavaScript primitive value. -/
inductive JSVal where
  | undefined
  | null
  | bool (b : Bool)
  | num (n : Int)
  | str (s : String)
  deriving DecidableEq, Repr

namespace JSVal

/-- The abstract operation `ToBoolean`: what `if (v)` and `!v` test. -/
def truthy : JSVal → Bool
  | undefined => false
  | null => false
  | bool b => b
  | num n => n != 0
  | str s => s != ""

/-- The decimal text of an integral Number, `Number.prototype.toString`. -/
def numToString (n : Int) : String :=
  if n < 0 then "-" ++ Nat.repr n.natAbs else Nat.repr n.natAbs

/-- The abstract operation `ToString`, applied by template literals and by `+=` on a string. -/
def toStr : JSVal → String
  | undefined => "undefined"
  | null => "null"
  | bool b => if b then "true" else "false"
  | num n => numToString n
  | str s => s

/-- The code points `StringToNumber` strips from both ends: WhiteSpace and LineTerminator. -/
def isStrWhiteSpace (c : Char) : Bool :=
  let n := c.toNat
  n == 0x09 || n == 0x0A || n == 0x0B || n == 0x0C || n == 0x0D || n == 0x20 || n == 0xA0 ||
  n == 0x1680 || (0x2000 ≤ n && n ≤ 0x200A) || n == 0x2028 || n == 0x2029 || n == 0x202F ||
  n == 0x205F || n == 0x3000 || n == 0xFEFF

/-- Strip white space from both ends of a list of characters. -/
def trimChars (l : List Char) : List Char :=
  ((l.dropWhile isStrWhiteSpace).reverse.dropWhile isStrWhiteSpace).reverse

/-- The value of a list of decimal digits, most significant first. -/
def digitsValue (l : List Char) : Nat :=
  l.foldl (fun acc c => acc * 10 + (c.toNat - 48)) 0

/-- A decimal digit, `0` to `9`. -/
def isDecimalDigit (c : Char) : Bool :=
  decide (48 ≤ c.toNat) && decide (c.toNat ≤ 57)

/-- A non-empty run of decimal digits denotes its value; anything else is not a number. -/
def parseDigits (l : List Char) : Option Nat :=
  if l ≠ [] ∧ l.all isDecimalDigit then some (digitsValue l) else none

/-- The operation `StringToNumber` on the decimal integer literals, `none` standing for `NaN`.
The empty and the all-blank string denote `0`.  The other numeric literals (a fraction, an
exponent, a radix prefix, `Infinity`) denote Numbers outside the integer model and are read as
`NaN`; the ledger never produces them, its integers are printed as plain decimal digits. -/
def stringToNumber (s : String) : Option Int :=
  match trimChars s.data with
  | [] => some 0
  | '-' :: ds => (parseDigits ds).map (fun (v : Nat) => -Int.ofNat v)
  | '+' :: ds => (parseDigits ds).map (fun (v : Nat) => Int.ofNat v)
  | ds => (parseDigits ds).map (fun (v : Nat) => Int.ofNat v)

/-- The abstract operation `ToNumber`, which is `Number(v)`; `none` stands for `NaN`. -/
def toNumber : JSVal → Option Int
  | undefined => none
  | null => some 0
  | bool b => some (if b then 1 else 0)
  | num n => some n
  | str s => stringToNumber s

/-- The loose comparison `v == 0` against the Number zero. -/
def looseEqZero : JSVal → Bool
  | undefined => false
  | null => false
  | v => v.toNumber == some 0

/-- The method call `v.toString()`: a `TypeError` on `undefined` and `null`. -/
def callToString : JSVal → Option String
  | undefined => none
  | null => none
  | v => some v.toStr

end JSVal

/-- An object: its property definitions in evaluation order. -/
abbrev Obj := List (String × JSVal)

/-- The latest definition of the property `k`, if the object has one. -/
def Obj.find? : Obj → String → Option JSVal
  | [], _ => none
  | (k', v) :: rest, k =>
    match Obj.find? rest k with
    | some w => some w
    | none => if k' = k then some v else none

/-- Property access `o.k`: `undefined` when the object has no such property. -/
def Obj.get (o : Obj) (k : String) : JSVal :=
  (o.find? k).getD JSVal.undefined

/-- The object literal `{ ...a, ...b }`: the definitions of `a`, then those of `b`. -/
def Obj.spread (a b : Obj) : Obj := a ++ b

/-! ## Status resolver (`src/app.js`) -/

/-- The function `isExpired`, the clock passed as `now` (milliseconds). -/
def isExpired (expiryDate : JSVal) (now : Int) : Bool :=
  if !expiryDate.truthy || expiryDate.looseEqZero then false
  else
    match expiryDate.toNumber with
    | some e => decide (e * 1000 < now)
    | none => false

/-- The function `getCredentialStatus`, the clock passed as `now` (milliseconds). -/
def getCredentialStatus (credential : Obj) (now : Int) : String :=
  if (credential.get "revoked").truthy then "revoked"
  else if isExpired (credential.get "expiryDate") now then "expired"
  else "valid"

/-! ## Commitment generator (`src/zkg-utils.js`) -/

/-- The call `ethers.utils.toUtf8Bytes`: the UTF-8 encoding of a string. -/
def toUtf8Bytes (s : String) : ByteArray := s.toUTF8

/-- The template literal `data` of `generateCommitment`, the string that is hashed. -/
def commitmentData (credentialData : Obj) : String :=
  let credentialType := credentialData.get "credentialType"
  let institutionName := credentialData.get "institutionName"
  let issueDate := credentialData.get "issueDate"
  let studentAddress := credentialData.get "studentAddress"
  let issuerAddress := credentialData.get "issuerAddress"
  credentialType.toStr ++ "|" ++ institutionName.toStr ++ "|" ++ issueDate.toStr ++ "|" ++
    studentAddress.toStr ++ "|" ++ issuerAddress.toStr

/-- The function `generateCommitment`, over the hash `keccak256`. -/
def generateCommitment (keccak256 : ByteArray → String) (credentialData : Obj) : String :=
  keccak256 (toUtf8Bytes (commitmentData credentialData))

/-- The object `commitmentData` that the issuance form builds: four strings taken from the form
and the wallet, and the issue date as a Number of seconds. -/
structure CommitmentFields where
  credentialType : String
  institutionName : String
  issueDate : Int
  studentAddress : String
  issuerAddress : String
  deriving DecidableEq, Repr

/-- The object literal built from the five fields. -/
def CommitmentFields.toObj (f : CommitmentFields) : Obj :=
  [("credentialType", .str f.credentialType), ("institutionName", .str f.institutionName),
   ("issueDate", .num f.issueDate), ("studentAddress", .str f.studentAddress),
   ("issuerAddress", .str f.issuerAddress)]

/-! ## Disclosure proof generator (`src/zkg-utils.js`) -/

/-- An exception thrown by the JavaScript code. -/
inductive JSError where
  | typeError
  deriving DecidableEq, Repr

/-- The object returned by `generateZKProof`; `nonce` is the value of the `BigNumber`. -/
structure ProofBundle where
  commitment : JSVal
  nonce : Nat
  proofHash : String
  disclosedFields : Obj
  deriving DecidableEq, Repr

/-- The string `proofData` that `generateZKProof` builds and hashes; `nonce` is the value drawn
by `ethers.BigNumber.from(ethers.utils.randomBytes(32))`. -/
def proofData (credential disclosureOptions : Obj) (nonce : Nat) : Except JSError String := do
  let credentialType := credential.get "credentialType"
  let institutionName := credential.get "institutionName"
  let issueDate := credential.get "issueDate"
  let expiryDate := credential.get "expiryDate"
  let student := credential.get "student"
  let issuer := credential.get "issuer"
  let commitment := credential.get "commitment"
  let mut proofData := ""
  if (disclosureOptions.get "showType").truthy then
    proofData := proofData ++ credentialType.toStr
  if (disclosureOptions.get "showInstitution").truthy then
    proofData := proofData ++ institutionName.toStr
  if (disclosureOptions.get "showIssueDate").truthy then
    match issueDate.callToString with
    | some s => proofData := proofData ++ s
    | none => throw JSError.typeError
  if (disclosureOptions.get "showExpiryDate").truthy then
    match expiryDate.callToString with
    | some s => proofData := proofData ++ s
    | none => throw JSError.typeError
  proofData := proofData ++ commitment.toStr
  proofData := proofData ++ Nat.repr nonce
  proofData := proofData ++ issuer.toStr
  proofData := proofData ++ student.toStr
  return proofData

/-- The function `generateZKProof`, over the hash `keccak256` and the nonce drawn. -/
def generateZKProof (keccak256 : ByteArray → String) (credential disclosureOptions : Obj)
    (nonce : Nat) : Except JSError ProofBundle := do
  let data ← proofData credential disclosureOptions nonce
  let proofHash := keccak256 (toUtf8Bytes data)
  return {
    commitment := credential.get "commitment"
    nonce := nonce
    proofHash := proofHash
    disclosedFields := disclosureOptions }

/-- The constant `defaultOptions` of `createSelectiveDisclosureProof`. -/
def defaultOptions : Obj :=
  [("showType", .bool true), ("showInstitution", .bool false), ("showIssueDate", .bool false),
   ("showExpiryDate", .bool false), ("showStudent", .bool false), ("showIssuer", .bool false)]

/-- The function `createSelectiveDisclosureProof`. -/
def createSelectiveDisclosureProof (keccak256 : ByteArray → String) (credential options : Obj)
    (nonce : Nat) : Except JSError ProofBundle :=
  let disclosureOptions := Obj.spread defaultOptions options
  generateZKProof keccak256 credential disclosureOptions nonce

/-! ## The disclosure payload as the specification words it -/

/-- The ordered disclosure payload: the text of each optional field whose flag is set, in the
order type, institution, issue date, expiry date, then the four fixed fields commitment, nonce,
issuer and holder. -/
def disclosurePayload (showType showInstitution showIssueDate showExpiryDate : Bool)
    (credentialType institutionName issueDate expiryDate : String)
    (commitment : String) (nonce : Nat) (issuer student : String) : String :=
  String.join
    (([(showType, credentialType), (showInstitution, institutionName),
        (showIssueDate, issueDate), (showExpiryDate, expiryDate)].filter Prod.fst).map Prod.snd
      ++ [commitment, Nat.repr nonce, issuer, student])

/-! ## Proof verification (`src/zkg-utils.js`) -/

/-- What the awaited ledger call `contract.verifyZKProof` resolves to, as far as the code reads
it: the boolean `valid` and the `BigNumber` `credentialId`. -/
structure LedgerAnswer where
  valid : Bool
  credentialId : Nat
  deriving DecidableEq, Repr

/-- A value that a promise resolves to or rejects with: a primitive, or an object with its
properties.  A `BigNumber` property is held as its decimal text, which is what its `toString`
returns. -/
inductive JSAny where
  | primitive (v : JSVal)
  | object (o : Obj)
  deriving DecidableEq, Repr

/-- Property access `x.k` on such a value: a `TypeError` on `undefined` and `null`, `undefined`
on any other primitive (no property read here exists on the wrapper prototypes), the property
on an object. -/
def JSAny.getProp (x : JSAny) (k : String) : Except JSError JSVal :=
  match x with
  | .primitive .undefined => .error JSError.typeError
  | .primitive .null => .error JSError.typeError
  | .primitive _ => .ok JSVal.undefined
  | .object o => .ok (o.get k)

/-- What the `catch` block of `verifyZKProof` receives: the value the awaited ledger call
rejected with, or a `TypeError` raised by the engine inside the `try` block. -/
inductive Caught where
  | rejection (e : JSAny)
  | typeError
  deriving DecidableEq, Repr

/-- The value of `error.message` that the `catch` block stores: the `message` property of the
value the ledger call rejected with, or the engine's text for a `TypeError`. -/
inductive ErrorMessage where
  | value (v : JSVal)
  | engineTypeError
  deriving DecidableEq, Repr

/-- The object returned by `verifyZKProof`.  On the `try` path it has `valid` and `credentialId`
only; on the `catch` path `valid` is `false`, `credentialId` is `null` and `error` holds the
message. -/
structure VerifyResult where
  valid : JSVal
  credentialId : Option String
  error : Option ErrorMessage
  deriving DecidableEq, Repr

/-- The `try` block of `verifyZKProof`: the awaited call, the reads `result.valid` and
`result.credentialId` and the call `result.credentialId.toString()`; whatever is thrown goes to
the `catch` block. -/
def verifyZKProofTry (proof : ProofBundle)
    (contractVerifyZKProof : JSVal → String → Nat → Except JSAny JSAny) :
    Except Caught VerifyResult :=
  match contractVerifyZKProof proof.commitment proof.proofHash proof.nonce with
  | .error e => .error (Caught.rejection e)
  | .ok result =>
    match result.getProp "valid", result.getProp "credentialId" with
    | .ok valid, .ok credentialId =>
      match credentialId.callToString with
      | some text => .ok { valid := valid, credentialId := some text, error := none }
      | none => .error Caught.typeError
    | _, _ => .error Caught.typeError

/-- The function `verifyZKProof`.  The awaited call `contract.verifyZKProof(commitment,
proofHash, nonce)` is the parameter `contractVerifyZKProof`, which resolves to a value or
rejects with a value.  The result is what the function returns, or the `TypeError` it raises
itself: the `catch` block reads `error.message`, which throws when the value caught is
`undefined` or `null`. -/
def verifyZKProof (proof : ProofBundle)
    (contractVerifyZKProof : JSVal → String → Nat → Except JSAny JSAny) :
    Except JSError VerifyResult :=
  match verifyZKProofTry proof contractVerifyZKProof with
  | .ok result => .ok result
  | .error Caught.typeError =>
    .ok { valid := .bool false, credentialId := none, error := some ErrorMessage.engineTypeError }
  | .error (Caught.rejection e) =>
    match e.getProp "message" with
    | .ok message =>
      .ok { valid := .bool false, credentialId := none, error := some (ErrorMessage.value message) }
    | .error thrown => .error thrown

/-- A ledger call as the contract binding of `ethers` makes it: it resolves to an object with
the boolean `valid` and the `BigNumber` `credentialId`, or rejects with an `Error` that carries
a message. -/
def wellFormedCall (call : JSVal → String → Nat → Except String LedgerAnswer) :
    JSVal → String → Nat → Except JSAny JSAny :=
  fun commitment proofHash nonce =>
    match call commitment proofHash nonce with
    | .ok answer =>
      .ok (JSAny.object
        [("valid", .bool answer.valid), ("credentialId", .str (Nat.repr answer.credentialId))])
    | .error message => .error (JSAny.object [("message", .str message)])

/-! ## The ledger-side verification, as the specification describes it -/

/-- Modelled from the spec: the reason codes of a failed verification, which the result of the
contract method `verifyZKProof` (absent from the sources) is specified to carry. -/
inductive Reason where
  | proofMismatch
  | unknownCommitment
  | revoked
  | expired
  | issuerNotRegistered
  deriving DecidableEq, Repr

/-- Modelled from the spec: the result `{ valid, credentialId, reason }` of the Proof Verifier,
the contract method `verifyZKProof` being absent from the sources. -/
structure Verdict where
  valid : Bool
  credentialId : Option Nat
  reason : Option Reason
  deriving DecidableEq, Repr

/-- Modelled from the spec: the state read through the Ledger Accessor, which the contract
`CredentialsPassport.sol` (not among the sources) holds: the credential records in issuance
order, a record's id being its position, and the issuer registrations. -/
structure Ledger where
  credentials : List Obj
  registeredIssuers : JSVal → Bool

/-- Modelled from the spec: the scan of the known credentials for a matching commitment behind
`getCredentialsByCommitment`, the contract being absent from the sources; `position` is the id
of the first record of the list. -/
def findCommitment (commitment : JSVal) : List Obj → Nat → Option (Nat × Obj)
  | [], _ => none
  | credential :: rest, position =>
    if credential.get "commitment" = commitment then some (position, credential)
    else findCommitment commitment rest (position + 1)

/-- Modelled from the spec: the lookup `getCredentialsByCommitment` of the Ledger Accessor, the
contract being absent from the sources. -/
def Ledger.getCredentialsByCommitment (ledger : Ledger) (commitment : JSVal) :
    Option (Nat × Obj) :=
  findCommitment commitment ledger.credentials 0

/-- Modelled from the spec: the Proof Verifier of section 4.4, which stands for the method
`verifyZKProof` of the contract `CredentialsPassport.sol`, absent from the sources.  Step 1
recomputes the expected hash from the bundle's policy, the disclosed values handed over with the
proof (`disclosed`) and the fixed fields, in the canonical order; step 2 resolves the credential
bound to the commitment; step 3 runs the status resolver; step 4 checks the issuer registration;
step 5 accepts. -/
def specVerify (keccak256 : ByteArray → String) (ledger : Ledger) (now : Int)
    (bundle : ProofBundle) (disclosed : Obj) : Verdict :=
  let expected := keccak256 (toUtf8Bytes (disclosurePayload
    (bundle.disclosedFields.get "showType").truthy
    (bundle.disclosedFields.get "showInstitution").truthy
    (bundle.disclosedFields.get "showIssueDate").truthy
    (bundle.disclosedFields.get "showExpiryDate").truthy
    (disclosed.get "credentialType").toStr (disclosed.get "institutionName").toStr
    (disclosed.get "issueDate").toStr (disclosed.get "expiryDate").toStr
    bundle.commitment.toStr bundle.nonce
    (disclosed.get "issuer").toStr (disclosed.get "student").toStr))
  if bundle.proofHash ≠ expected then ⟨false, none, some Reason.proofMismatch⟩
  else
    match ledger.getCredentialsByCommitment bundle.commitment with
    | none => ⟨false, none, some Reason.unknownCommitment⟩
    | some (id, credential) =>
      if getCredentialStatus credential now = "revoked" then ⟨false, none, some Reason.revoked⟩
      else if getCredentialStatus credential now = "expired" then
        ⟨false, none, some Reason.expired⟩
      else if !ledger.registeredIssuers (credential.get "issuer") then
        ⟨false, none, some Reason.issuerNotRegistered⟩
      else ⟨true, some id, none⟩

/-- Modelled from the spec: the ledger call `contract.verifyZKProof(commitment, proofHash, nonce)`
answered by the specification's Proof Verifier, the contract being absent from the sources.  The
call carries neither the policy nor the disclosed values that step 1 recomputes the hash from;
they are the `policy` and the `disclosed` values the verifier was handed with the proof.  The
answer keeps `valid` and the credential id, `0` when there is none. -/
def ledgerContract (keccak256 : ByteArray → String) (ledger : Ledger) (now : Int)
    (policy disclosed : Obj) : JSVal → String → Nat → Except String LedgerAnswer :=
  fun commitment proofHash nonce =>
    let verdict := specVerify keccak256 ledger now ⟨commitment, nonce, proofHash, policy⟩ disclosed
    .ok ⟨verdict.valid, verdict.credentialId.getD 0⟩

/-! ## Event handlers of `src/app.js`

A handler is embedded as a function from what it reads (the session, the form, and the outcome
of each awaited ledger call, which resolves or throws an error with a message) to what it does:
the dialogs and status lines it shows and the calls it makes, in order. -/

/-- What a `catch` block receives: an error with a message, thrown by the code or by a ledger
call, or a `TypeError` raised by the engine, whose message is the engine's. -/
inductive Thrown where
  | error (message : String)
  | typeError
  deriving DecidableEq, Repr

/-- An observable step of a handler. -/
inductive Effect where
  /-- The dialog `alert(message)`. -/
  | alert (message : String)
  /-- The dialog `alert(lead + error.message)` of a `catch` block. -/
  | alertError (lead : String) (e : Thrown)
  /-- The dialog `confirm(message)`. -/
  | confirm (message : String)
  /-- The status line: its `className` and `textContent`. -/
  | status (className textContent : String)
  /-- The status line `Error: ` followed by `error.message`, of a `catch` block. -/
  | statusError (e : Thrown)
  /-- A call of a function of `zkg-utils.js`. -/
  | call (callee : String)
  /-- A call of a method of the ledger contract. -/
  | ledger (method : String) (arguments : List JSVal)
  deriving DecidableEq, Repr

/-- A call of a method of the ledger contract. -/
def Effect.isLedgerCall : Effect → Bool
  | .ledger _ _ => true
  | _ => false

/-- The method `String.prototype.trim`. -/
def jsTrim (s : String) : String := String.mk (JSVal.trimChars s.data)

/-- The constant `ethers.constants.HashZero`, the all-zero 32-byte hash. -/
def HashZero : String := "0x0000000000000000000000000000000000000000000000000000000000000000"

/-- The object `generateZKGProof` builds from a record fetched with `contract.getCredential`;
the `toString` calls on `id`, `issueDate` and `expiryDate` raise a `TypeError` on a missing
field. -/
def fetchedCredential (cred : Obj) : Except Thrown Obj :=
  match (cred.get "id").callToString, (cred.get "issueDate").callToString,
    (cred.get "expiryDate").callToString with
  | some id, some issueDate, some expiryDate =>
    .ok [("id", .str id), ("issuer", cred.get "issuer"), ("student", cred.get "student"),
      ("credentialType", cred.get "credentialType"),
      ("institutionName", cred.get "institutionName"),
      ("issueDate", .str issueDate), ("expiryDate", .str expiryDate),
      ("revoked", cred.get "revoked"), ("metadataURI", cred.get "metadataURI"),
      ("commitment",
        if (cred.get "commitment").truthy then cred.get "commitment" else .str HashZero)]
  | _, _, _ => .error Thrown.typeError

/-- What a run of `generateZKGProof` does and the proof it displays, if any. -/
structure ZKGRun where
  effects : List Effect
  proof : Option ProofBundle
  deriving DecidableEq, Repr

/-- The part of `generateZKGProof` that follows the resolution of the credential: the commitment
guard, the three `confirm` dialogs and the call of `createSelectiveDisclosureProof`; `effects` is
what has been done so far. -/
def discloseResolved (keccak256 : ByteArray → String) (effects : List Effect) (credential : Obj)
    (confirmInstitution confirmIssueDate confirmExpiryDate : Bool) (nonce : Nat) : ZKGRun :=
  if !(credential.get "commitment").truthy ||
      decide (credential.get "commitment" = JSVal.str HashZero) then
    ⟨effects ++ [.alert "This credential does not have a ZKG commitment."], none⟩
  else
    let options : Obj :=
      [("showType", .bool true), ("showInstitution", .bool confirmInstitution),
       ("showIssueDate", .bool confirmIssueDate), ("showExpiryDate", .bool confirmExpiryDate)]
    let asked := effects ++
      [.confirm "Include institution name in proof?", .confirm "Include issue date in proof?",
       .confirm "Include expiry date in proof?", .call "createSelectiveDisclosureProof"]
    match createSelectiveDisclosureProof keccak256
      [("credentialId", credential.get "id"),
       ("credentialType", credential.get "credentialType"),
       ("institutionName", credential.get "institutionName"),
       ("issueDate", credential.get "issueDate"), ("expiryDate", credential.get "expiryDate"),
       ("student", credential.get "student"), ("issuer", credential.get "issuer"),
       ("commitment", credential.get "commitment")] options nonce with
    | .ok proof => ⟨asked, some proof⟩
    | .error _ => ⟨asked ++ [.alertError "Error generating ZKG proof: " Thrown.typeError], none⟩

/-- The function `generateZKGProof`.  `walletConnected` is `isWalletConnected()`, `stored` is
`storedCredentials[credentialId]`, `contractGetCredential` is the outcome of the awaited
`contract.getCredential(credentialId)`, and the three booleans are the answers to the `confirm`
dialogs. -/
def generateZKGProof (keccak256 : ByteArray → String) (walletConnected : Bool)
    (credentialId : JSVal) (stored : Option Obj) (contractGetCredential : Except String Obj)
    (confirmInstitution confirmIssueDate confirmExpiryDate : Bool) (nonce : Nat) : ZKGRun :=
  if !walletConnected then ⟨[.alert "Please connect your wallet first!"], none⟩
  else
    match stored with
    | some credential =>
      discloseResolved keccak256 [] credential confirmInstitution confirmIssueDate
        confirmExpiryDate nonce
    | none =>
      match contractGetCredential with
      | .error message =>
        ⟨[.ledger "getCredential" [credentialId],
          .alertError "Error generating ZKG proof: " (Thrown.error message)], none⟩
      | .ok cred =>
        match fetchedCredential cred with
        | .error e =>
          ⟨[.ledger "getCredential" [credentialId],
            .alertError "Error generating ZKG proof: " e], none⟩
        | .ok credential =>
          discloseResolved keccak256 [.ledger "getCredential" [credentialId]] credential
            confirmInstitution confirmIssueDate confirmExpiryDate nonce

/-- The fields of the issuance form, as typed. -/
structure IssueForm where
  studentAddress : String
  credentialType : String
  institutionName : String
  expiryDateInput : String
  metadataURI : String
  deriving DecidableEq, Repr

/-- The submit handler of `issueCredentialForm`.  `isAddress` is `ethers.utils.isAddress`,
`dateGetTime` is `new Date(value).getTime()` on the value of the date input, `now` is
`Date.now()`, and the three outcomes are those of the awaited `contract.registeredIssuers`,
`contract.issueCredential` (the transaction hash) and `tx.wait()`.  The multi-signature and
revocation blocks of the source only write to the console. -/
def issueCredentialSubmit (keccak256 : ByteArray → String) (isAddress : String → Bool)
    (dateGetTime : String → Int) (now : Int) (walletConnected : Bool) (userAddress : String)
    (contractRegisteredIssuers : Except String Bool)
    (contractIssueCredential : Except String String) (txWait : Except String Unit)
    (form : IssueForm) : List Effect :=
  if !walletConnected then [.alert "Please connect your wallet first!"]
  else
    let started : List Effect :=
      [.status "status-message" "Processing...",
       .ledger "registeredIssuers" [.str userAddress]]
    match contractRegisteredIssuers with
    | .error message => started ++ [.statusError (Thrown.error message)]
    | .ok isIssuer =>
      if !isIssuer then
        started ++ [.status "status-message error"
          ("Error: Your address is not registered as an issuer. " ++
            "Contact the contract owner to register your institution.")]
      else
        let studentAddress := jsTrim form.studentAddress
        let credentialType := jsTrim form.credentialType
        let institutionName := jsTrim form.institutionName
        let expiryDateInput := form.expiryDateInput
        let metadataURI := jsTrim form.metadataURI
        if !isAddress studentAddress then
          started ++ [.status "status-message error" "Error: Invalid student wallet address."]
        else
          let expiryDate : Int :=
            if expiryDateInput ≠ "" then Int.fdiv (dateGetTime expiryDateInput) 1000 else 0
          let commitmentData : Obj :=
            [("credentialType", .str credentialType), ("institutionName", .str institutionName),
             ("issueDate", .num (Int.fdiv now 1000)), ("studentAddress", .str studentAddress),
             ("issuerAddress", .str userAddress)]
          let commitment := generateCommitment keccak256 commitmentData
          let called := started ++
            [.call "generateCommitment",
             .ledger "issueCredential"
               [.str studentAddress, .str credentialType, .str institutionName, .num expiryDate,
                .str (if metadataURI ≠ "" then metadataURI else ""), .str commitment]]
          match contractIssueCredential with
          | .error message => called ++ [.statusError (Thrown.error message)]
          | .ok txHash =>
            let sent := called ++
              [.status "status-message"
                ("Transaction sent! Waiting for confirmation... (Tx: " ++ txHash ++ ")")]
            match txWait with
            | .error message => sent ++ [.statusError (Thrown.error message)]
            | .ok _ =>
              sent ++ [.status "status-message success"
                "✅ Credential issued successfully! Transaction confirmed."]

/-- The `reason` chosen in the not-verified branch of the submit handler of
`verifyCredentialForm`. -/
def notVerifiedReason (credential : Obj) (isIssuerRegistered : Bool) (now : Int) : String :=
  if (credential.get "revoked").truthy then "This credential has been revoked by the issuer."
  else if isExpired (credential.get "expiryDate") now then "This credential has expired."
  else if !isIssuerRegistered then "The issuer is not registered in the system."
  else "This credential is not valid."

/-- What the submit handler of `verifyCredentialForm` shows. -/
inductive VerifyDisplay where
  /-- The block titled `Credential Verified`, with the record's fields. -/
  | verified (credentialId : String) (credential : Obj)
  /-- The block titled `Credential Not Verified`, with the reason and the record. -/
  | notVerified (reason : String) (credentialId : String) (credential : Obj)
  /-- The block titled `Verification Failed`, with `Error: ` and `error.message`. -/
  | failed (e : Thrown)
  deriving DecidableEq, Repr

/-- The submit handler of `verifyCredentialForm`.  `configLoaded` says that
`CONFIG.contractAddress` and `CONFIG.contractABI` are set; the three outcomes are those of the
awaited `getCredential`, `verifyCredential` and `registeredIssuers` (of the record's issuer).
The fields of a ledger record that are `BigNumber`s are held as their decimal text, which is what
`!`, `==` and `Number` make of them. -/
def verifyCredentialSubmit (configLoaded : Bool) (now : Int)
    (contractGetCredential : Except String Obj) (contractVerifyCredential : Except String Bool)
    (contractRegisteredIssuers : JSVal → Except String Bool) : VerifyDisplay :=
  if !configLoaded then
    .failed (Thrown.error "Contract not deployed. Please deploy the contract first.")
  else
    match contractGetCredential with
    | .error message => .failed (Thrown.error message)
    | .ok credential =>
      match contractVerifyCredential with
      | .error message => .failed (Thrown.error message)
      | .ok isValid =>
        match contractRegisteredIssuers (credential.get "issuer") with
        | .error message => .failed (Thrown.error message)
        | .ok isIssuerRegistered =>
          if isValid && isIssuerRegistered then
            match (credential.get "id").callToString with
            | some id => .verified id credential
            | none => .failed Thrown.typeError
          else
            let reason := notVerifiedReason credential isIssuerRegistered now
            match (credential.get "id").callToString with
            | some id => .notVerified reason id credential
            | none => .failed Thrown.typeError

/-- What the submit handler of `verifyZKGForm` shows. -/
inductive ZKGDisplay where
  /-- The block titled `ZKG Proof Verified`. -/
  | verified (credentialId commitment : String) (credentialType : JSVal)
  /-- The block titled `ZKG Proof Invalid`, with its text. -/
  | invalid (message : String)
  /-- The block titled `Verification Failed`, with `Error: ` and `error.message`. -/
  | failed (e : Thrown)
  deriving DecidableEq, Repr

/-- The submit handler of `verifyZKGForm`.  The three strings are the values of the form
fields; the outcomes are those of the awaited `verifyZKProof` and `getCredential` of a
read-only contract. -/
def verifyZKGSubmit (configLoaded : Bool) (zkCommitment zkProofHash zkNonce : String)
    (contractVerifyZKProof : String → String → String → Except String LedgerAnswer)
    (contractGetCredential : Nat → Except String Obj) : ZKGDisplay :=
  let commitment := jsTrim zkCommitment
  let proofHash := jsTrim zkProofHash
  let nonce := jsTrim zkNonce
  if !configLoaded then
    .failed (Thrown.error "Contract not deployed. Please deploy the contract first.")
  else
    match contractVerifyZKProof commitment proofHash nonce with
    | .error message => .failed (Thrown.error message)
    | .ok result =>
      if result.valid then
        match contractGetCredential result.credentialId with
        | .error message => .failed (Thrown.error message)
        | .ok credential =>
          .verified (Nat.repr result.credentialId) commitment (credential.get "credentialType")
      else
        .invalid ("The zero-knowledge proof could not be verified. " ++
          "The proof may be invalid or the credential may not exist.")

/-! ## Navigation guard (`src/app.js`) -/

/-- The navigation state: the `data-page` of the button with class `active` and the id of the
page with class `active`. -/
structure NavState where
  activeButton : Option JSVal
  activePage : Option String
  deriving DecidableEq, Repr

/-- The click handler of a navigation button whose `data-page` is `targetPage`, under the
session role `userRole`; `pageIds` are the ids of the elements of class `page`.  The result is
the `alert` shown, if any, and the navigation state after the click.  An admitted click on a
button whose page does not exist ends in a `TypeError` after every page has lost the class
`active`.  The data loaders started after an admitted click do not touch this state. -/
def navClick (userRole targetPage : JSVal) (pageIds : List String) (s : NavState) :
    Option String × NavState :=
  if userRole = .str "user" ∧
      (targetPage = .str "issuer" ∨ targetPage = .str "verifier" ∨ targetPage = .str "dao") then
    (some ("Access denied. You are logged in as a user. Please logout and login with the " ++
      "appropriate role to access this page."), s)
  else if userRole = .str "issuer" ∧ targetPage ≠ .str "issuer" then
    (some ("Access denied. Issuers can only access the Issuer Portal. Please logout and " ++
      "login with the appropriate role to access this page."), s)
  else if userRole = .str "verifier" ∧ targetPage ≠ .str "verifier" then
    (some ("Access denied. Verifiers can only access the Verifier Tool. Please logout and " ++
      "login with the appropriate role to access this page."), s)
  else if userRole = .str "dao" ∧ targetPage ≠ .str "dao" then
    (some ("Access denied. DAO members can only access the DAO Registry. Please logout and " ++
      "login with the appropriate role to access this page."), s)
  else
    let pageId := targetPage.toStr ++ "-page"
    (none,
      { activeButton := some targetPage
        activePage := if pageId ∈ pageIds then some pageId else none })

/-- The display that `updateNavigationBasedOnRole` sets on a navigation button whose `data-page`
is `pageType`, under the session role `userRole`: the body of its `forEach`. -/
def updateNavigationBasedOnRole (userRole pageType : JSVal) : String :=
  if userRole = .str "user" then
    if pageType = .str "issuer" ∨ pageType = .str "verifier" ∨ pageType = .str "dao" then "none"
    else "block"
  else if userRole = .str "issuer" then
    if pageType = .str "issuer" then "block" else "none"
  else if userRole = .str "verifier" then
    if pageType = .str "verifier" then "block" else "none"
  else if userRole = .str "dao" then
    if pageType = .str "dao" then "block" else "none"
  else "block"

/-! ## Session state (`src/app.js`) -/

/-- The session variables of `app.js`: whether `provider`, `signer` and `contract` are set,
`userAddress` (`none` for `null`), `userRole`, and the navigation state. -/
structure Session where
  provider : Bool
  signer : Bool
  contract : Bool
  userAddress : Option String
  userRole : JSVal
  nav : NavState
  deriving DecidableEq, Repr

/-- How a run of `initWeb3` goes: no wallet in the browser (`window.ethereum` undefined), the
account request thrown back, the address lookup thrown back, or an address obtained, with the
configuration loaded or not when the contract is to be built. -/
inductive Web3Outcome where
  | noWallet
  | requestRejected (message : String)
  | addressFailed (message : String)
  | connected (address : String) (configLoaded : Bool)
  deriving DecidableEq, Repr

/-- The function `initWeb3`, as far as it assigns the session variables. -/
def initWeb3 (outcome : Web3Outcome) (s : Session) : Session :=
  match outcome with
  | .noWallet => s
  | .requestRejected _ => { s with provider := true }
  | .addressFailed _ => { s with provider := true, signer := true }
  | .connected address configLoaded =>
    { s with
      provider := true
      signer := true
      userAddress := some address
      contract := if configLoaded then true else s.contract }

/-- The function `connectWalletFromPortal`: it runs `initWeb3`; what follows only refreshes the
page and starts data loaders, which assign none of the session variables. -/
def connectWalletFromPortal (outcome : Web3Outcome) (s : Session) : Session :=
  initWeb3 outcome s

/-- The function `switchToPage`: the buttons whose `data-page` is `pageName` and the page whose
id is `pageName-page` get the class `active`, all others lose it; `buttonPages` are the
`data-page` values of the navigation buttons and `pageIds` the ids of the pages. -/
def switchToPage (pageName : String) (buttonPages pageIds : List String) : NavState :=
  { activeButton := if pageName ∈ buttonPages then some (.str pageName) else none
    activePage := if pageName ++ "-page" ∈ pageIds then some (pageName ++ "-page") else none }

/-- The function `loginWithRole`: it assigns `userRole` and then switches to the page of the
role, if the role is one of the four known ones (`updatePageVisibility`, called before, may
switch to that same page). -/
def loginWithRole (role : JSVal) (buttonPages pageIds : List String) (s : Session) : Session :=
  let s := { s with userRole := role }
  if role = .str "user" then { s with nav := switchToPage "student" buttonPages pageIds }
  else if role = .str "issuer" then { s with nav := switchToPage "issuer" buttonPages pageIds }
  else if role = .str "verifier" then
    { s with nav := switchToPage "verifier" buttonPages pageIds }
  else if role = .str "dao" then { s with nav := switchToPage "dao" buttonPages pageIds }
  else s

/-- The function `logout`: the five session variables become `null`; the login page is shown. -/
def logout (s : Session) : Session :=
  { s with userAddress := none, userRole := .null, provider := false, signer := false,
           contract := false }

/-- The events that drive a session. -/
inductive SessionEvent where
  /-- A click on a role button of the login page: `loginWithRole(role)`. -/
  | login (role : JSVal)
  /-- A click on the navigation button whose `data-page` is `targetPage`. -/
  | navClick (targetPage : JSVal)
  /-- A run of `connectWalletFromPortal`. -/
  | connectWallet (outcome : Web3Outcome)
  /-- A click on the logout button. -/
  | logout
  /-- The wallet event `accountsChanged`, with the new list of accounts. -/
  | accountsChanged (accounts : List String)
  deriving DecidableEq, Repr

/-- A login event. -/
def SessionEvent.isLogin : SessionEvent → Bool
  | .login _ => true
  | _ => false

/-- One step of the session: the handler of the event applied to the session variables. -/
def Session.step (buttonPages pageIds : List String) (s : Session) : SessionEvent → Session
  | .login role => loginWithRole role buttonPages pageIds s
  | .navClick targetPage => { s with nav := (navClick s.userRole targetPage pageIds s.nav).2 }
  | .connectWallet outcome => connectWalletFromPortal outcome s
  | .logout => logout s
  | .accountsChanged accounts => if accounts.length = 0 then logout s else logout s

/-- A run of the session: the events handled one after the other. -/
def Session.run (buttonPages pageIds : List String) (s : Session) (events : List SessionEvent) :
    Session :=
  events.foldl (Session.step buttonPages pageIds) s

/-! ## Disclosure over an object store

To speak of what a function leaves unchanged, objects live in a store and are passed by
address, as in JavaScript.  The two disclosure functions are given again over the store: each
object literal of the source allocates, each property access reads, and the source assigns no
property of an existing object. -/

/-- The object store: the objects by address, in order of creation. -/
abbrev Heap := List Obj

/-- The object at an address. -/
def Heap.read (heap : Heap) (address : Nat) : Obj := (heap.get? address).getD []

/-- The evaluation of an object literal: a new object at the next free address. -/
def Heap.alloc (heap : Heap) (o : Obj) : Heap × Nat := (heap ++ [o], heap.length)

/-- The bundle object returned by `generateZKProof`, its `disclosedFields` held by address. -/
structure StoredBundle where
  commitment : JSVal
  nonce : Nat
  proofHash : String
  disclosedFields : Nat
  deriving DecidableEq, Repr

/-- The outcome of a disclosure function over the store: the store afterwards, the bundle, and
the ledger calls made. -/
structure Disclosed where
  heap : Heap
  bundle : StoredBundle
  ledgerCalls : List Effect
  deriving DecidableEq, Repr

/-- The function `generateZKProof` over the store: `credential` and `disclosureOptions` are
addresses.  The function reads both objects and returns a bundle that refers to the options
object itself. -/
def generateZKProofAt (keccak256 : ByteArray → String) (heap : Heap)
    (credential disclosureOptions : Nat) (nonce : Nat) : Except JSError Disclosed := do
  let data ← proofData (heap.read credential) (heap.read disclosureOptions) nonce
  let proofHash := keccak256 (toUtf8Bytes data)
  return {
    heap := heap
    bundle := {
      commitment := (heap.read credential).get "commitment"
      nonce := nonce
      proofHash := proofHash
      disclosedFields := disclosureOptions }
    ledgerCalls := [] }

/-- The function `createSelectiveDisclosureProof` over the store: the literal `defaultOptions`
and the merged `disclosureOptions` are new objects. -/
def createSelectiveDisclosureProofAt (keccak256 : ByteArray → String) (heap : Heap)
    (credential options : Nat) (nonce : Nat) : Except JSError Disclosed :=
  let (heap1, defaults) := heap.alloc defaultOptions
  let (heap2, disclosureOptions) :=
    heap1.alloc (Obj.spread (heap1.read defaults) (heap1.read options))
  generateZKProofAt keccak256 heap2 credential disclosureOptions nonce

/-! ## Decimal text -/

theorem digitChar_toNat (k : Nat) (h : k < 10) :
    48 ≤ (Nat.digitChar k).toNat ∧ (Nat.digitChar k).toNat ≤ 57 ∧
      (Nat.digitChar k).toNat - 48 = k := by
  interval_cases k <;> decide

theorem digitsValue_append_single (l : List Char) (d : Char) :
    JSVal.digitsValue (l ++ [d]) = JSVal.digitsValue l * 10 + (d.toNat - 48) := by
  simp [JSVal.digitsValue, List.foldl_append]

/-- What `Nat.toDigitsCore 10` prepends, given enough fuel: a non-empty run of decimal digits
whose value is the number printed. -/
theorem toDigitsCore_spec (fuel : Nat) : ∀ (n : Nat) (ds : List Char), n < fuel →
    ∃ l : List Char, Nat.toDigitsCore 10 fuel n ds = l ++ ds ∧ l ≠ [] ∧
      (∀ c ∈ l, 48 ≤ c.toNat ∧ c.toNat ≤ 57) ∧ JSVal.digitsValue l = n := by
  induction fuel with
  | zero => intro n ds h; omega
  | succ fuel ih =>
    intro n ds h
    have hd := digitChar_toNat (n % 10) (Nat.mod_lt _ (by decide))
    unfold Nat.toDigitsCore
    by_cases h0 : n / 10 = 0
    · refine ⟨[Nat.digitChar (n % 10)], by simp [h0], by simp, ?_, ?_⟩
      · intro c hc
        simp only [List.mem_singleton] at hc
        subst hc
        exact ⟨hd.1, hd.2.1⟩
      · have hn : n % 10 = n := Nat.mod_eq_of_lt (by omega)
        have h3 := hd.2.2
        simp only [JSVal.digitsValue, List.foldl_cons, List.foldl_nil]
        omega
    · have hlt : n / 10 < fuel := by omega
      obtain ⟨l, hl, hne, hdig, hval⟩ := ih (n / 10) (Nat.digitChar (n % 10) :: ds) hlt
      refine ⟨l ++ [Nat.digitChar (n % 10)], by simp [h0, hl], by simp, ?_, ?_⟩
      · intro c hc
        rcases List.mem_append.mp hc with hc | hc
        · exact hdig c hc
        · simp only [List.mem_singleton] at hc
          subst hc
          exact ⟨hd.1, hd.2.1⟩
      · rw [digitsValue_append_single, hval, hd.2.2]
        omega

theorem toDigits_spec (n : Nat) :
    Nat.toDigits 10 n ≠ [] ∧ (∀ c ∈ Nat.toDigits 10 n, 48 ≤ c.toNat ∧ c.toNat ≤ 57) ∧
      JSVal.digitsValue (Nat.toDigits 10 n) = n := by
  obtain ⟨l, hl, hne, hdig, hval⟩ := toDigitsCore_spec (n + 1) n [] (Nat.lt_succ_self n)
  have : Nat.toDigits 10 n = l := by simp [Nat.toDigits, hl]
  rw [this]
  exact ⟨hne, hdig, hval⟩

theorem repr_data (n : Nat) : (Nat.repr n).data = Nat.toDigits 10 n := rfl

/-- The decimal text of a natural number determines it. -/
theorem repr_injective (a b : Nat) (h : Nat.repr a = Nat.repr b) : a = b := by
  have hd : Nat.toDigits 10 a = Nat.toDigits 10 b := by
    rw [← repr_data, ← repr_data, h]
  rw [← (toDigits_spec a).2.2, ← (toDigits_spec b).2.2, hd]

theorem not_ws_of_digit (c : Char) (h : 48 ≤ c.toNat ∧ c.toNat ≤ 57) :
    JSVal.isStrWhiteSpace c = false := by
  have h1 := h.1
  have h2 := h.2
  simp only [JSVal.isStrWhiteSpace, Bool.or_eq_false_iff, Bool.and_eq_false_iff, beq_eq_false_iff_ne,
    decide_eq_false_iff_not, ne_eq]
  omega

theorem dropWhile_self (p : Char → Bool) (l : List Char) (h : ∀ c ∈ l, p c = false) :
    l.dropWhile p = l := by
  cases l with
  | nil => rfl
  | cons a t => simp [List.dropWhile, h a (List.mem_cons_self a t)]

theorem trimChars_self (l : List Char) (h : ∀ c ∈ l, JSVal.isStrWhiteSpace c = false) :
    JSVal.trimChars l = l := by
  unfold JSVal.trimChars
  rw [dropWhile_self _ l h, dropWhile_self _ l.reverse (fun c hc => h c (List.mem_reverse.mp hc)),
    List.reverse_reverse]

theorem parseDigits_toDigits (n : Nat) : JSVal.parseDigits (Nat.toDigits 10 n) = some n := by
  obtain ⟨hne, hdig, hval⟩ := toDigits_spec n
  have hall : (Nat.toDigits 10 n).all JSVal.isDecimalDigit = true := by
    rw [List.all_eq_true]
    intro c hc
    simp [JSVal.isDecimalDigit, hdig c hc]
  simp [JSVal.parseDigits, hne, hall, hval]

/-- Reading back the decimal text of a natural number gives the number. -/
theorem stringToNumber_repr (n : Nat) : JSVal.stringToNumber (Nat.repr n) = some (n : Int) := by
  obtain ⟨hne, hdig, hval⟩ := toDigits_spec n
  have htrim : JSVal.trimChars (Nat.repr n).data = Nat.toDigits 10 n := by
    rw [repr_data]
    exact trimChars_self _ (fun c hc => not_ws_of_digit c (hdig c hc))
  unfold JSVal.stringToNumber
  rw [htrim]
  cases hl : Nat.toDigits 10 n with
  | nil => exact absurd hl hne
  | cons a t =>
    have ha : 48 ≤ a.toNat ∧ a.toNat ≤ 57 := hdig a (by rw [hl]; exact List.mem_cons_self a t)
    have hm : a ≠ '-' := by
      intro h; rw [h] at ha; revert ha; decide
    have hp : a ≠ '+' := by
      intro h; rw [h] at ha; revert ha; decide
    have hpd := parseDigits_toDigits n
    rw [hl] at hpd
    split
    · rename_i heq; cases heq
    · rename_i heq; cases heq; exact absurd rfl hm
    · rename_i heq; cases heq; exact absurd rfl hp
    · rename_i ds _ _ _ 
      simp [hpd]

/-- Reading back the decimal text of an integral Number gives the number. -/
theorem stringToNumber_numToString (e : Int) :
    JSVal.stringToNumber (JSVal.numToString e) = some e := by
  unfold JSVal.numToString
  by_cases h : e < 0
  · obtain ⟨hne, hdig, hval⟩ := toDigits_spec e.natAbs
    have hdata : ("-" ++ Nat.repr e.natAbs).data = '-' :: Nat.toDigits 10 e.natAbs := rfl
    have htrim : JSVal.trimChars ("-" ++ Nat.repr e.natAbs).data =
        '-' :: Nat.toDigits 10 e.natAbs := by
      rw [hdata]
      apply trimChars_self
      intro c hc
      rcases List.mem_cons.mp hc with hc | hc
      · subst hc; decide
      · exact not_ws_of_digit c (hdig c hc)
    rw [if_pos h]
    unfold JSVal.stringToNumber
    rw [htrim]
    have habs : -Int.ofNat e.natAbs = e := by
      have : Int.ofNat e.natAbs = (e.natAbs : Int) := rfl
      omega
    simp only [parseDigits_toDigits, Option.map_some', habs]
  · have habs : (e.natAbs : Int) = e := by omega
    rw [if_neg h, stringToNumber_repr, habs]

theorem numToString_ne_empty (e : Int) : JSVal.numToString e ≠ "" := by
  intro h
  have h1 := stringToNumber_numToString e
  rw [h] at h1
  have h2 : JSVal.stringToNumber "" = some 0 := by decide
  rw [h2] at h1
  have he : e = 0 := by simpa using h1.symm
  subst he
  revert h
  decide

/-- The decimal text of an integral Number determines it. -/
theorem numToString_injective (a b : Int) (h : JSVal.numToString a = JSVal.numToString b) :
    a = b := by
  have ha := stringToNumber_numToString a
  rw [h, stringToNumber_numToString b] at ha
  exact (Option.some.inj ha).symm

/-- The test `isExpired` on a Number of seconds. -/
theorem isExpired_num (e now : Int) :
    isExpired (.num e) now = decide (e ≠ 0 ∧ e * 1000 < now) := by
  by_cases h : e = 0
  · subst h; simp [isExpired, JSVal.truthy]
  · simp [isExpired, JSVal.truthy, JSVal.looseEqZero, JSVal.toNumber, h]

/-- The test `isExpired` on the decimal text of a count of seconds. -/
theorem isExpired_str (e now : Int) :
    isExpired (.str (JSVal.numToString e)) now = decide (e ≠ 0 ∧ e * 1000 < now) := by
  have hne := numToString_ne_empty e
  by_cases h : e = 0
  · simp [isExpired, JSVal.truthy, JSVal.looseEqZero, JSVal.toNumber,
      stringToNumber_numToString, h]
  · simp [isExpired, JSVal.truthy, JSVal.looseEqZero, JSVal.toNumber,
      stringToNumber_numToString, h, hne]

/-! ## Status resolver: revocation, the permanent sentinel, expiry -/

/-- C1: a credential whose `revoked` flag is `true` has status `'revoked'`, whatever its
`expiryDate` and whatever the current time. -/
theorem getCredentialStatus_revoked (credential : Obj) (now : Int)
    (h : credential.get "revoked" = JSVal.bool true) :
    getCredentialStatus credential now = "revoked" := by
  simp [getCredentialStatus, h, JSVal.truthy]

theorem getCredentialStatus_revoked_witness :
    Obj.get [("revoked", JSVal.bool true), ("expiryDate", JSVal.num 0)] "revoked" =
        JSVal.bool true ∧
      getCredentialStatus [("revoked", JSVal.bool true), ("expiryDate", JSVal.num 0)] 5 =
        "revoked" :=
  ⟨by decide, getCredentialStatus_revoked _ 5 (by decide)⟩

/-- C2: an `expiryDate` of zero, held as the Number `0` or as the decimal string `"0"`, is never
expired: `isExpired` is `false` and the status is not `'expired'`, at every current time. -/
theorem zero_expiry_never_expired (credential : Obj) (now : Int)
    (h : credential.get "expiryDate" = JSVal.num 0 ∨
      credential.get "expiryDate" = JSVal.str "0") :
    isExpired (credential.get "expiryDate") now = false ∧
      getCredentialStatus credential now ≠ "expired" := by
  have hz : isExpired (credential.get "expiryDate") now = false := by
    rcases h with h | h
    · rw [h, isExpired_num]; simp
    · rw [h]
      have := isExpired_str 0 now
      simpa using this
  refine ⟨hz, ?_⟩
  unfold getCredentialStatus
  rw [hz]
  split <;> decide

theorem zero_expiry_never_expired_witness :
    (Obj.get [("revoked", JSVal.bool false), ("expiryDate", JSVal.str "0")] "expiryDate" =
          JSVal.num 0 ∨
        Obj.get [("revoked", JSVal.bool false), ("expiryDate", JSVal.str "0")] "expiryDate" =
          JSVal.str "0") ∧
      isExpired
          (Obj.get [("revoked", JSVal.bool false), ("expiryDate", JSVal.str "0")] "expiryDate")
          1700000000000 = false ∧
      getCredentialStatus [("revoked", JSVal.bool false), ("expiryDate", JSVal.str "0")]
          1700000000000 ≠ "expired" :=
  ⟨by decide, zero_expiry_never_expired _ 1700000000000 (by decide)⟩

/-- C3: an unrevoked credential whose `expiryDate` is the count of seconds `e`, held as a Number
or as its decimal text, has status `'expired'` exactly when `e` is not zero and
`e * 1000 < now`, and `'valid'` otherwise; at `e * 1000 = now` it is still `'valid'`. -/
theorem getCredentialStatus_unrevoked (credential : Obj) (now e : Int)
    (hr : credential.get "revoked" = JSVal.bool false)
    (he : credential.get "expiryDate" = JSVal.num e ∨
      credential.get "expiryDate" = JSVal.str (JSVal.numToString e)) :
    (getCredentialStatus credential now = "expired" ↔ (e ≠ 0 ∧ e * 1000 < now)) ∧
      (getCredentialStatus credential now = "valid" ↔ ¬ (e ≠ 0 ∧ e * 1000 < now)) ∧
      (e * 1000 = now → getCredentialStatus credential now = "valid") := by
  have hx : isExpired (credential.get "expiryDate") now = decide (e ≠ 0 ∧ e * 1000 < now) := by
    rcases he with he | he
    · rw [he, isExpired_num]
    · rw [he, isExpired_str]
  have hs : getCredentialStatus credential now =
      if e ≠ 0 ∧ e * 1000 < now then "expired" else "valid" := by
    unfold getCredentialStatus
    rw [hr, hx]
    by_cases hc : e ≠ 0 ∧ e * 1000 < now
    · simp [JSVal.truthy, hc]
    · simp only [JSVal.truthy, decide_eq_false hc, if_neg hc]
      rfl
  by_cases hc : e ≠ 0 ∧ e * 1000 < now
  · rw [hs, if_pos hc]
    refine ⟨by simp [hc], by simp [hc], ?_⟩
    intro h; omega
  · rw [hs, if_neg hc]
    exact ⟨by simp [hc], by simp [hc], fun _ => rfl⟩

theorem getCredentialStatus_unrevoked_witness :
    Obj.get [("revoked", JSVal.bool false), ("expiryDate", JSVal.str "1700000000")] "revoked" =
        JSVal.bool false ∧
      getCredentialStatus
          [("revoked", JSVal.bool false), ("expiryDate", JSVal.str "1700000000")]
          1700000000000 = "valid" ∧
      (getCredentialStatus
          [("revoked", JSVal.bool false), ("expiryDate", JSVal.str "1700000000")]
          1700000000001 = "expired" ↔
        ((1700000000 : Int) ≠ 0 ∧ (1700000000 : Int) * 1000 < 1700000000001)) :=
  ⟨by decide,
    (getCredentialStatus_unrevoked _ 1700000000000 1700000000 (by decide)
      (Or.inr (by decide))).2.2 (by decide),
    (getCredentialStatus_unrevoked _ 1700000000001 1700000000 (by decide)
      (Or.inr (by decide))).1⟩

/-! ## Commitment generator -/

theorem intercalate_five (a b c d e : String) :
    String.intercalate "|" [a, b, c, d, e] =
      a ++ "|" ++ b ++ "|" ++ c ++ "|" ++ d ++ "|" ++ e := by
  simp [String.intercalate, String.intercalate.go]

/-- C4: `generateCommitment` is a function of the five fields `credentialType`,
`institutionName`, `issueDate`, `studentAddress` and `issuerAddress` alone: its result is the
hash of the UTF-8 bytes of their texts joined in that order by `|`, and two input objects that
agree on the five fields have the same commitment, whatever else they carry. -/
theorem generateCommitment_five_fields (keccak256 : ByteArray → String) (a b : Obj)
    (h : ∀ k ∈ ["credentialType", "institutionName", "issueDate", "studentAddress",
      "issuerAddress"], a.get k = b.get k) :
    generateCommitment keccak256 a =
        keccak256 (String.toUTF8 (String.intercalate "|"
          [(a.get "credentialType").toStr, (a.get "institutionName").toStr,
           (a.get "issueDate").toStr, (a.get "studentAddress").toStr,
           (a.get "issuerAddress").toStr])) ∧
      generateCommitment keccak256 a = generateCommitment keccak256 b := by
  refine ⟨?_, ?_⟩
  · rw [intercalate_five]
    rfl
  · have h1 := h "credentialType" (by simp)
    have h2 := h "institutionName" (by simp)
    have h3 := h "issueDate" (by simp)
    have h4 := h "studentAddress" (by simp)
    have h5 := h "issuerAddress" (by simp)
    simp only [generateCommitment, commitmentData, h1, h2, h3, h4, h5]

theorem generateCommitment_five_fields_witness :
    generateCommitment (fun bytes => Nat.repr bytes.size)
        [("credentialType", JSVal.str "BSc"), ("institutionName", JSVal.str "Acme U"),
         ("issueDate", JSVal.num 1700000000), ("studentAddress", JSVal.str "0xA1"),
         ("issuerAddress", JSVal.str "0xB2")] =
      generateCommitment (fun bytes => Nat.repr bytes.size)
        [("metadataURI", JSVal.str "ipfs://x"), ("credentialType", JSVal.str "BSc"),
         ("institutionName", JSVal.str "Acme U"), ("issueDate", JSVal.num 1700000000),
         ("studentAddress", JSVal.str "0xA1"), ("issuerAddress", JSVal.str "0xB2"),
         ("revoked", JSVal.bool true)] :=
  (generateCommitment_five_fields _ _ _ (by decide)).2

theorem numToString_no_bar (e : Int) : '|' ∉ (JSVal.numToString e).data := by
  have hdig := (toDigits_spec e.natAbs).2.1
  have hd : '|' ∉ Nat.toDigits 10 e.natAbs := by
    intro hc
    have := hdig _ hc
    revert this
    decide
  unfold JSVal.numToString
  by_cases h : e < 0
  · rw [if_pos h]
    have hdata : ("-" ++ Nat.repr e.natAbs).data = '-' :: Nat.toDigits 10 e.natAbs := rfl
    rw [hdata]
    intro hc
    rcases List.mem_cons.mp hc with hc | hc
    · revert hc; decide
    · exact hd hc
  · rw [if_neg h, repr_data]
    exact hd

/-- Two texts that are cut at their first `|` agree piece by piece. -/
theorem eq_of_append_bar (a : List Char) : ∀ (a' r r' : List Char), '|' ∉ a → '|' ∉ a' →
    a ++ '|' :: r = a' ++ '|' :: r' → a = a' ∧ r = r' := by
  induction a with
  | nil =>
    intro a' r r' _ ha' h
    cases a' with
    | nil => exact ⟨rfl, by simpa using h⟩
    | cons c t =>
      simp only [List.nil_append, List.cons_append, List.cons.injEq] at h
      exact absurd (by rw [h.1]; exact List.mem_cons_self c t) ha'
  | cons x xs ih =>
    intro a' r r' ha ha' h
    cases a' with
    | nil =>
      simp only [List.nil_append, List.cons_append, List.cons.injEq] at h
      exact absurd (by rw [← h.1]; exact List.mem_cons_self x xs) ha
    | cons c t =>
      simp only [List.cons_append, List.cons.injEq] at h
      obtain ⟨h1, h2⟩ := ih t r r' (fun hm => ha (List.mem_cons_of_mem x hm))
        (fun hm => ha' (List.mem_cons_of_mem c hm)) h.2
      exact ⟨by rw [h.1, h1], h2⟩

theorem commitmentData_toObj (f : CommitmentFields) :
    (commitmentData f.toObj).data =
      f.credentialType.data ++ '|' :: (f.institutionName.data ++ '|' ::
        ((JSVal.numToString f.issueDate).data ++ '|' :: (f.studentAddress.data ++ '|' ::
          f.issuerAddress.data))) := by
  have h : commitmentData f.toObj =
      f.credentialType ++ "|" ++ f.institutionName ++ "|" ++ JSVal.numToString f.issueDate ++
        "|" ++ f.studentAddress ++ "|" ++ f.issuerAddress := rfl
  rw [h]
  simp [String.data_append]

/-- When the three free-text fields before the last hold no `|`, the hashed string determines
the five fields. -/
theorem commitmentData_injective (f g : CommitmentFields)
    (hf : '|' ∉ f.credentialType.data ∧ '|' ∉ f.institutionName.data ∧
      '|' ∉ f.studentAddress.data)
    (hg : '|' ∉ g.credentialType.data ∧ '|' ∉ g.institutionName.data ∧
      '|' ∉ g.studentAddress.data)
    (h : commitmentData f.toObj = commitmentData g.toObj) : f = g := by
  have hd := congrArg String.data h
  rw [commitmentData_toObj, commitmentData_toObj] at hd
  obtain ⟨h1, hd⟩ := eq_of_append_bar _ _ _ _ hf.1 hg.1 hd
  obtain ⟨h2, hd⟩ := eq_of_append_bar _ _ _ _ hf.2.1 hg.2.1 hd
  obtain ⟨h3, hd⟩ := eq_of_append_bar _ _ _ _ (numToString_no_bar _) (numToString_no_bar _) hd
  obtain ⟨h4, h5⟩ := eq_of_append_bar _ _ _ _ hf.2.2 hg.2.2 hd
  cases f
  cases g
  simp only [CommitmentFields.mk.injEq]
  exact ⟨String.ext h1, String.ext h2, numToString_injective _ _ (String.ext h3),
    String.ext h4, String.ext h5⟩

/-- C5, as the code has it: the separator `|` is not escaped, so it separates unambiguously
only fields that do not contain it.  Two five-field tuples that differ in some field, and whose
`credentialType`, `institutionName` and `studentAddress` hold no `|` (the decimal text of
`issueDate` never does), are hashed from different strings, so that their commitments differ
under every hash that is collision-free on strings. -/
theorem commitmentData_ne_of_fields_ne (f g : CommitmentFields)
    (hf : '|' ∉ f.credentialType.data ∧ '|' ∉ f.institutionName.data ∧
      '|' ∉ f.studentAddress.data)
    (hg : '|' ∉ g.credentialType.data ∧ '|' ∉ g.institutionName.data ∧
      '|' ∉ g.studentAddress.data)
    (hne : f ≠ g) :
    commitmentData f.toObj ≠ commitmentData g.toObj ∧
      ∀ keccak256 : ByteArray → String,
        (∀ s t : String, keccak256 (toUtf8Bytes s) = keccak256 (toUtf8Bytes t) → s = t) →
          generateCommitment keccak256 f.toObj ≠ generateCommitment keccak256 g.toObj := by
  have hd : commitmentData f.toObj ≠ commitmentData g.toObj :=
    fun h => hne (commitmentData_injective f g hf hg h)
  exact ⟨hd, fun keccak256 hfree h => hd (hfree _ _ h)⟩

theorem commitmentData_ne_of_fields_ne_witness :
    commitmentData (CommitmentFields.toObj ⟨"BSc", "Acme U", 1700000000, "0xA1", "0xB2"⟩) ≠
      commitmentData (CommitmentFields.toObj ⟨"BSc", "Acme U", 1700000001, "0xA1", "0xB2"⟩) :=
  (commitmentData_ne_of_fields_ne _ _ (by decide) (by decide) (by decide)).1

/-- C5, as stated, fails: moving a `|` from one field into its neighbour changes two fields and
leaves the hashed string, hence the commitment under every hash, unchanged. -/
theorem separator_is_ambiguous :
    (⟨"a|b", "c", 0, "x", "y"⟩ : CommitmentFields) ≠ ⟨"a", "b|c", 0, "x", "y"⟩ ∧
      commitmentData (CommitmentFields.toObj ⟨"a|b", "c", 0, "x", "y"⟩) =
        commitmentData (CommitmentFields.toObj ⟨"a", "b|c", 0, "x", "y"⟩) ∧
      ∀ keccak256 : ByteArray → String,
        generateCommitment keccak256 (CommitmentFields.toObj ⟨"a|b", "c", 0, "x", "y"⟩) =
          generateCommitment keccak256 (CommitmentFields.toObj ⟨"a", "b|c", 0, "x", "y"⟩) := by
  refine ⟨by decide, by decide, fun keccak256 => ?_⟩
  have h : commitmentData (CommitmentFields.toObj ⟨"a|b", "c", 0, "x", "y"⟩) =
      commitmentData (CommitmentFields.toObj ⟨"a", "b|c", 0, "x", "y"⟩) := by decide
  simp only [generateCommitment, h]

/-! ## Disclosure proof generator -/

theorem proofData_eq_payload (credential disclosureOptions : Obj) (nonce : Nat)
    (issueText expiryText : String)
    (hi : (disclosureOptions.get "showIssueDate").truthy = true →
      (credential.get "issueDate").callToString = some issueText)
    (he : (disclosureOptions.get "showExpiryDate").truthy = true →
      (credential.get "expiryDate").callToString = some expiryText) :
    proofData credential disclosureOptions nonce =
      .ok (disclosurePayload (disclosureOptions.get "showType").truthy
        (disclosureOptions.get "showInstitution").truthy
        (disclosureOptions.get "showIssueDate").truthy
        (disclosureOptions.get "showExpiryDate").truthy
        (credential.get "credentialType").toStr (credential.get "institutionName").toStr
        issueText expiryText (credential.get "commitment").toStr nonce
        (credential.get "issuer").toStr (credential.get "student").toStr) := by
  unfold proofData
  cases h1 : (disclosureOptions.get "showType").truthy <;>
    cases h2 : (disclosureOptions.get "showInstitution").truthy <;>
    cases h3 : (disclosureOptions.get "showIssueDate").truthy <;>
    cases h4 : (disclosureOptions.get "showExpiryDate").truthy <;>
    simp_all [disclosurePayload, String.join, pure, Except.pure, bind, Except.bind,
      String.append_assoc]

theorem proofData_flags_off (credential disclosureOptions : Obj) (nonce : Nat)
    (h : ∀ k ∈ ["showType", "showInstitution", "showIssueDate", "showExpiryDate"],
      (disclosureOptions.get k).truthy = false) :
    proofData credential disclosureOptions nonce =
      .ok ((credential.get "commitment").toStr ++ Nat.repr nonce ++
        (credential.get "issuer").toStr ++ (credential.get "student").toStr) := by
  have h1 := h "showType" (by simp)
  have h2 := h "showInstitution" (by simp)
  have h3 := h "showIssueDate" (by simp)
  have h4 := h "showExpiryDate" (by simp)
  unfold proofData
  simp [h1, h2, h3, h4, pure, Except.pure, bind, Except.bind]

/-- C6: for every credential, policy and nonce, `generateZKProof` returns a bundle whose
`proofHash` is the hash of the UTF-8 bytes of the disclosure payload: the texts of
`credentialType`, `institutionName`, `issueDate` and `expiryDate`, each only if its flag is set
and with no placeholder otherwise, then `commitment`, the decimal text of the nonce, `issuer`
and `student`.  A date whose flag is set has to be present, since the code calls its
`toString` method. -/
theorem generateZKProof_payload (keccak256 : ByteArray → String)
    (credential disclosureOptions : Obj) (nonce : Nat) (issueText expiryText : String)
    (hi : (disclosureOptions.get "showIssueDate").truthy = true →
      (credential.get "issueDate").callToString = some issueText)
    (he : (disclosureOptions.get "showExpiryDate").truthy = true →
      (credential.get "expiryDate").callToString = some expiryText) :
    generateZKProof keccak256 credential disclosureOptions nonce =
      .ok {
        commitment := credential.get "commitment"
        nonce := nonce
        proofHash := keccak256 (String.toUTF8
          (disclosurePayload (disclosureOptions.get "showType").truthy
            (disclosureOptions.get "showInstitution").truthy
            (disclosureOptions.get "showIssueDate").truthy
            (disclosureOptions.get "showExpiryDate").truthy
            (credential.get "credentialType").toStr (credential.get "institutionName").toStr
            issueText expiryText (credential.get "commitment").toStr nonce
            (credential.get "issuer").toStr (credential.get "student").toStr))
        disclosedFields := disclosureOptions } := by
  unfold generateZKProof
  rw [proofData_eq_payload credential disclosureOptions nonce issueText expiryText hi he]
  rfl

theorem generateZKProof_payload_witness :
    generateZKProof (fun bytes => Nat.repr bytes.size)
        [("credentialType", JSVal.str "BSc"), ("institutionName", JSVal.str "Acme U"),
         ("issueDate", JSVal.str "1700000000"), ("expiryDate", JSVal.str "0"),
         ("student", JSVal.str "0xA1"), ("issuer", JSVal.str "0xB2"),
         ("commitment", JSVal.str "0xC3")]
        [("showType", JSVal.bool true), ("showExpiryDate", JSVal.bool true)] 42 =
      .ok {
        commitment := JSVal.str "0xC3"
        nonce := 42
        proofHash := Nat.repr (String.toUTF8 "BSc00xC3420xB20xA1").size
        disclosedFields := [("showType", JSVal.bool true), ("showExpiryDate", JSVal.bool true)] } :=
  generateZKProof_payload (fun bytes => Nat.repr bytes.size)
    [("credentialType", JSVal.str "BSc"), ("institutionName", JSVal.str "Acme U"),
     ("issueDate", JSVal.str "1700000000"), ("expiryDate", JSVal.str "0"),
     ("student", JSVal.str "0xA1"), ("issuer", JSVal.str "0xB2"),
     ("commitment", JSVal.str "0xC3")]
    [("showType", JSVal.bool true), ("showExpiryDate", JSVal.bool true)] 42
    "1700000000" "0" (by decide) (by decide)

theorem generateZKProof_flags_off (keccak256 : ByteArray → String)
    (credential disclosureOptions : Obj) (nonce : Nat)
    (h : ∀ k ∈ ["showType", "showInstitution", "showIssueDate", "showExpiryDate"],
      (disclosureOptions.get k).truthy = false) :
    generateZKProof keccak256 credential disclosureOptions nonce =
      .ok {
        commitment := credential.get "commitment"
        nonce := nonce
        proofHash := keccak256 (String.toUTF8
          ((credential.get "commitment").toStr ++ Nat.repr nonce ++
            (credential.get "issuer").toStr ++ (credential.get "student").toStr))
        disclosedFields := disclosureOptions } := by
  unfold generateZKProof
  rw [proofData_flags_off credential disclosureOptions nonce h]
  rfl

/-- C7: under a policy whose flags are all false, `generateZKProof` returns a bundle for every
credential, and the hashed string is `commitment`, the decimal text of the nonce, `issuer` and
`student`, with nothing from `credentialType`, `institutionName`, `issueDate` or `expiryDate`. -/
theorem generateZKProof_all_flags_false (keccak256 : ByteArray → String)
    (credential disclosureOptions : Obj) (nonce : Nat)
    (h : ∀ k ∈ ["showType", "showInstitution", "showIssueDate", "showExpiryDate"],
      (disclosureOptions.get k).truthy = false) :
    generateZKProof keccak256 credential disclosureOptions nonce =
      .ok {
        commitment := credential.get "commitment"
        nonce := nonce
        proofHash := keccak256 (String.toUTF8
          ((credential.get "commitment").toStr ++ Nat.repr nonce ++
            (credential.get "issuer").toStr ++ (credential.get "student").toStr))
        disclosedFields := disclosureOptions } :=
  generateZKProof_flags_off keccak256 credential disclosureOptions nonce h

theorem generateZKProof_all_flags_false_witness :
    generateZKProof (fun bytes => Nat.repr bytes.size)
        [("credentialType", JSVal.str "BSc"), ("student", JSVal.str "0xA1"),
         ("issuer", JSVal.str "0xB2"), ("commitment", JSVal.str "0xC3")]
        [("showType", JSVal.bool false), ("showInstitution", JSVal.bool false),
         ("showIssueDate", JSVal.bool false), ("showExpiryDate", JSVal.bool false),
         ("showStudent", JSVal.bool false), ("showIssuer", JSVal.bool false)] 42 =
      .ok {
        commitment := JSVal.str "0xC3"
        nonce := 42
        proofHash := Nat.repr (String.toUTF8 "0xC3420xB20xA1").size
        disclosedFields :=
          [("showType", JSVal.bool false), ("showInstitution", JSVal.bool false),
           ("showIssueDate", JSVal.bool false), ("showExpiryDate", JSVal.bool false),
           ("showStudent", JSVal.bool false), ("showIssuer", JSVal.bool false)] } :=
  generateZKProof_all_flags_false (fun bytes => Nat.repr bytes.size)
    [("credentialType", JSVal.str "BSc"), ("student", JSVal.str "0xA1"),
     ("issuer", JSVal.str "0xB2"), ("commitment", JSVal.str "0xC3")]
    [("showType", JSVal.bool false), ("showInstitution", JSVal.bool false),
     ("showIssueDate", JSVal.bool false), ("showExpiryDate", JSVal.bool false),
     ("showStudent", JSVal.bool false), ("showIssuer", JSVal.bool false)] 42 (by decide)

theorem find?_cons (k' : String) (v : JSVal) (t : Obj) (k : String) :
    Obj.find? ((k', v) :: t) k =
      match Obj.find? t k with
      | some w => some w
      | none => if k' = k then some v else none := rfl

theorem find?_append (a b : Obj) (k : String) :
    Obj.find? (a ++ b) k = (Obj.find? b k).orElse (fun _ => Obj.find? a k) := by
  induction a with
  | nil =>
    rw [List.nil_append]
    cases Obj.find? b k <;> rfl
  | cons p t ih =>
    obtain ⟨k', v⟩ := p
    rw [List.cons_append, find?_cons, ih, find?_cons]
    cases Obj.find? b k <;> rfl

theorem get_spread (a b : Obj) (k : String) :
    (Obj.spread a b).get k =
      match b.find? k with
      | some v => v
      | none => a.get k := by
  unfold Obj.get Obj.spread
  rw [find?_append]
  cases hb : Obj.find? b k <;> simp

/-- The bundle `createSelectiveDisclosureProof` returns when both dates are present. -/
theorem createSelectiveDisclosureProof_ok (keccak256 : ByteArray → String)
    (credential options : Obj) (nonce : Nat) (issueText expiryText : String)
    (hi : (credential.get "issueDate").callToString = some issueText)
    (he : (credential.get "expiryDate").callToString = some expiryText) :
    ∃ data : String,
      proofData credential (Obj.spread defaultOptions options) nonce = .ok data ∧
      createSelectiveDisclosureProof keccak256 credential options nonce =
        .ok ⟨credential.get "commitment", nonce, keccak256 (toUtf8Bytes data),
          Obj.spread defaultOptions options⟩ := by
  have hp := proofData_eq_payload credential (Obj.spread defaultOptions options) nonce
    issueText expiryText (fun _ => hi) (fun _ => he)
  refine ⟨_, hp, ?_⟩
  unfold createSelectiveDisclosureProof generateZKProof
  simp only [hp]
  rfl

/-- C8, as the code has it: for a credential whose dates are present, `generateZKProof` and
`createSelectiveDisclosureProof` return a bundle of exactly four components: the credential's
`commitment` unchanged, the nonce used in the hash, the `proofHash` of the hashed string, and the
disclosure policy (for `createSelectiveDisclosureProof`, the defaults overridden by the caller's
options).  No plaintext of a disclosed field is part of the bundle. -/
theorem bundle_components (keccak256 : ByteArray → String) (credential options : Obj)
    (nonce : Nat) (issueText expiryText : String)
    (hi : (credential.get "issueDate").callToString = some issueText)
    (he : (credential.get "expiryDate").callToString = some expiryText) :
    (∃ data : String, proofData credential options nonce = .ok data ∧
      generateZKProof keccak256 credential options nonce =
        .ok ⟨credential.get "commitment", nonce, keccak256 (toUtf8Bytes data), options⟩) ∧
    (∃ data : String,
      proofData credential (Obj.spread defaultOptions options) nonce = .ok data ∧
      createSelectiveDisclosureProof keccak256 credential options nonce =
        .ok ⟨credential.get "commitment", nonce, keccak256 (toUtf8Bytes data),
          Obj.spread defaultOptions options⟩) := by
  refine ⟨?_, createSelectiveDisclosureProof_ok keccak256 credential options nonce issueText
    expiryText hi he⟩
  have hp := proofData_eq_payload credential options nonce issueText expiryText
    (fun _ => hi) (fun _ => he)
  refine ⟨_, hp, ?_⟩
  unfold generateZKProof
  simp only [hp]
  rfl

theorem bundle_components_witness :
    ∃ data : String,
      proofData
          [("credentialType", JSVal.str "BSc"), ("issueDate", JSVal.str "1700000000"),
           ("expiryDate", JSVal.str "0"), ("student", JSVal.str "0xA1"),
           ("issuer", JSVal.str "0xB2"), ("commitment", JSVal.str "0xC3")]
          (Obj.spread defaultOptions [("showIssueDate", JSVal.bool true)]) 42 = .ok data ∧
      createSelectiveDisclosureProof (fun bytes => Nat.repr bytes.size)
          [("credentialType", JSVal.str "BSc"), ("issueDate", JSVal.str "1700000000"),
           ("expiryDate", JSVal.str "0"), ("student", JSVal.str "0xA1"),
           ("issuer", JSVal.str "0xB2"), ("commitment", JSVal.str "0xC3")]
          [("showIssueDate", JSVal.bool true)] 42 =
        .ok ⟨JSVal.str "0xC3", 42, Nat.repr (toUtf8Bytes data).size,
          Obj.spread defaultOptions [("showIssueDate", JSVal.bool true)]⟩ :=
  (bundle_components (fun bytes => Nat.repr bytes.size)
    [("credentialType", JSVal.str "BSc"), ("issueDate", JSVal.str "1700000000"),
     ("expiryDate", JSVal.str "0"), ("student", JSVal.str "0xA1"),
     ("issuer", JSVal.str "0xB2"), ("commitment", JSVal.str "0xC3")]
    [("showIssueDate", JSVal.bool true)] 42 "1700000000" "0" (by decide) (by decide)).2

/-- C8, as stated, fails: the bundle does not carry the plaintext of a disclosed field.  Two
credentials that differ in `credentialType`, disclosed with `showType` set and the same nonce,
give bundles with the same `commitment`, `nonce` and `disclosedFields` under every hash, so only
the digest `proofHash` depends on the disclosed text; and no reader of the bundle returns the
disclosed `credentialType` for every hash. -/
theorem bundle_carries_no_plaintext :
    (∀ (keccak256 : ByteArray → String) (b1 b2 : ProofBundle),
      createSelectiveDisclosureProof keccak256
          [("credentialType", JSVal.str "BSc"), ("issueDate", JSVal.str "1700000000"),
           ("expiryDate", JSVal.str "0"), ("student", JSVal.str "0xA1"),
           ("issuer", JSVal.str "0xB2"), ("commitment", JSVal.str "0xC3")] [] 42 = .ok b1 →
      createSelectiveDisclosureProof keccak256
          [("credentialType", JSVal.str "MSc"), ("issueDate", JSVal.str "1700000000"),
           ("expiryDate", JSVal.str "0"), ("student", JSVal.str "0xA1"),
           ("issuer", JSVal.str "0xB2"), ("commitment", JSVal.str "0xC3")] [] 42 = .ok b2 →
      (b1.disclosedFields.get "showType").truthy = true ∧ b1.commitment = b2.commitment ∧
        b1.nonce = b2.nonce ∧ b1.disclosedFields = b2.disclosedFields) ∧
    ¬ ∃ read : ProofBundle → JSVal,
      ∀ (keccak256 : ByteArray → String) (credential options : Obj) (nonce : Nat)
        (bundle : ProofBundle),
        createSelectiveDisclosureProof keccak256 credential options nonce = .ok bundle →
        (bundle.disclosedFields.get "showType").truthy = true →
        read bundle = credential.get "credentialType" := by
  constructor
  · intro keccak256 b1 b2 h1 h2
    have e1 := (createSelectiveDisclosureProof_ok keccak256
      [("credentialType", JSVal.str "BSc"), ("issueDate", JSVal.str "1700000000"),
       ("expiryDate", JSVal.str "0"), ("student", JSVal.str "0xA1"),
       ("issuer", JSVal.str "0xB2"), ("commitment", JSVal.str "0xC3")] [] 42
      "1700000000" "0" (by decide) (by decide))
    have e2 := (createSelectiveDisclosureProof_ok keccak256
      [("credentialType", JSVal.str "MSc"), ("issueDate", JSVal.str "1700000000"),
       ("expiryDate", JSVal.str "0"), ("student", JSVal.str "0xA1"),
       ("issuer", JSVal.str "0xB2"), ("commitment", JSVal.str "0xC3")] [] 42
      "1700000000" "0" (by decide) (by decide))
    obtain ⟨d1, _, e1⟩ := e1
    obtain ⟨d2, _, e2⟩ := e2
    rw [e1] at h1
    rw [e2] at h2
    cases h1
    cases h2
    exact ⟨rfl, rfl, rfl, rfl⟩
  · rintro ⟨read, hread⟩
    have h1 := hread (fun _ => "0x00")
      [("credentialType", JSVal.str "BSc"), ("issueDate", JSVal.str "1700000000"),
       ("expiryDate", JSVal.str "0"), ("student", JSVal.str "0xA1"),
       ("issuer", JSVal.str "0xB2"), ("commitment", JSVal.str "0xC3")] [] 42
      ⟨JSVal.str "0xC3", 42, "0x00", Obj.spread defaultOptions []⟩ rfl rfl
    have h2 := hread (fun _ => "0x00")
      [("credentialType", JSVal.str "MSc"), ("issueDate", JSVal.str "1700000000"),
       ("expiryDate", JSVal.str "0"), ("student", JSVal.str "0xA1"),
       ("issuer", JSVal.str "0xB2"), ("commitment", JSVal.str "0xC3")] [] 42
      ⟨JSVal.str "0xC3", 42, "0x00", Obj.spread defaultOptions []⟩ rfl rfl
    rw [h1] at h2
    revert h2
    decide

/-- C9: the policy in the bundle returned by `createSelectiveDisclosureProof` is the defaults
overridden by the caller's options.  A flag the caller sets has the caller's value, a flag the
caller leaves out has its default, and when the caller sets none of the six flags `showType` is
`true` and `showInstitution`, `showIssueDate`, `showExpiryDate`, `showStudent` and `showIssuer`
are `false`. -/
theorem disclosure_policy_defaults (keccak256 : ByteArray → String) (credential options : Obj)
    (nonce : Nat) (issueText expiryText : String)
    (hi : (credential.get "issueDate").callToString = some issueText)
    (he : (credential.get "expiryDate").callToString = some expiryText) :
    ∃ bundle : ProofBundle,
      createSelectiveDisclosureProof keccak256 credential options nonce = .ok bundle ∧
      (∀ (k : String) (v : JSVal), options.find? k = some v →
        bundle.disclosedFields.get k = v) ∧
      (∀ k : String, options.find? k = none →
        bundle.disclosedFields.get k = defaultOptions.get k) ∧
      ((∀ k ∈ ["showType", "showInstitution", "showIssueDate", "showExpiryDate", "showStudent",
          "showIssuer"], options.find? k = none) →
        bundle.disclosedFields.get "showType" = JSVal.bool true ∧
        bundle.disclosedFields.get "showInstitution" = JSVal.bool false ∧
        bundle.disclosedFields.get "showIssueDate" = JSVal.bool false ∧
        bundle.disclosedFields.get "showExpiryDate" = JSVal.bool false ∧
        bundle.disclosedFields.get "showStudent" = JSVal.bool false ∧
        bundle.disclosedFields.get "showIssuer" = JSVal.bool false) := by
  obtain ⟨data, _, hb⟩ := createSelectiveDisclosureProof_ok keccak256 credential options nonce
    issueText expiryText hi he
  refine ⟨_, hb, ?_, ?_, ?_⟩
  · intro k v hk
    show (Obj.spread defaultOptions options).get k = v
    rw [get_spread, hk]
  · intro k hk
    show (Obj.spread defaultOptions options).get k = defaultOptions.get k
    rw [get_spread, hk]
  · intro hnone
    have key : ∀ k ∈ ["showType", "showInstitution", "showIssueDate", "showExpiryDate",
        "showStudent", "showIssuer"],
        (Obj.spread defaultOptions options).get k = defaultOptions.get k := by
      intro k hk
      rw [get_spread, hnone k hk]
    exact ⟨key "showType" (by simp), key "showInstitution" (by simp),
      key "showIssueDate" (by simp), key "showExpiryDate" (by simp),
      key "showStudent" (by simp), key "showIssuer" (by simp)⟩

theorem disclosure_policy_defaults_witness :
    ∃ bundle : ProofBundle,
      createSelectiveDisclosureProof (fun bytes => Nat.repr bytes.size)
          [("credentialType", JSVal.str "BSc"), ("issueDate", JSVal.str "1700000000"),
           ("expiryDate", JSVal.str "0"), ("student", JSVal.str "0xA1"),
           ("issuer", JSVal.str "0xB2"), ("commitment", JSVal.str "0xC3")]
          [("showInstitution", JSVal.bool true)] 42 = .ok bundle ∧
      bundle.disclosedFields.get "showInstitution" = JSVal.bool true ∧
      bundle.disclosedFields.get "showType" = JSVal.bool true ∧
      bundle.disclosedFields.get "showIssueDate" = JSVal.bool false := by
  obtain ⟨bundle, hb, hset, hkeep, _⟩ :=
    disclosure_policy_defaults (fun bytes => Nat.repr bytes.size)
      [("credentialType", JSVal.str "BSc"), ("issueDate", JSVal.str "1700000000"),
       ("expiryDate", JSVal.str "0"), ("student", JSVal.str "0xA1"),
       ("issuer", JSVal.str "0xB2"), ("commitment", JSVal.str "0xC3")]
      [("showInstitution", JSVal.bool true)] 42 "1700000000" "0" (by decide) (by decide)
  exact ⟨bundle, hb, hset "showInstitution" _ (by decide),
    (hkeep "showType" (by decide)).trans (by decide),
    (hkeep "showIssueDate" (by decide)).trans (by decide)⟩

/-- C10 fails on the code: the default `showType: true` is overridden by the caller's options
like every other flag.  With options `{ showType: false }` the bundle's `disclosedFields.showType`
is `false` and the hashed string is `commitment`, nonce, `issuer`, `student`, without
`credentialType`. -/
theorem showType_can_be_switched_off (keccak256 : ByteArray → String) (nonce : Nat) :
    createSelectiveDisclosureProof keccak256
        [("credentialType", JSVal.str "BSc"), ("institutionName", JSVal.str "Acme U"),
         ("issueDate", JSVal.str "1700000000"), ("expiryDate", JSVal.str "0"),
         ("student", JSVal.str "0xA1"), ("issuer", JSVal.str "0xB2"),
         ("commitment", JSVal.str "0xC3")]
        [("showType", JSVal.bool false)] nonce =
      .ok {
        commitment := JSVal.str "0xC3"
        nonce := nonce
        proofHash := keccak256 (String.toUTF8 ("0xC3" ++ Nat.repr nonce ++ "0xB2" ++ "0xA1"))
        disclosedFields := defaultOptions ++ [("showType", JSVal.bool false)] } ∧
      Obj.get (defaultOptions ++ [("showType", JSVal.bool false)]) "showType" =
        JSVal.bool false := by
  refine ⟨?_, by decide⟩
  unfold createSelectiveDisclosureProof
  exact generateZKProof_flags_off keccak256 _ _ nonce (by decide)

/-! ## Disclosure requires a commitment -/

theorem discloseResolved_zero (keccak256 : ByteArray → String) (effects : List Effect)
    (credential : Obj) (c1 c2 c3 : Bool) (nonce : Nat)
    (hzero : (credential.get "commitment").truthy = false ∨
      credential.get "commitment" = JSVal.str HashZero) :
    discloseResolved keccak256 effects credential c1 c2 c3 nonce =
      ⟨effects ++ [.alert "This credential does not have a ZKG commitment."], none⟩ := by
  unfold discloseResolved
  rcases hzero with h | h
  · simp [h]
  · simp [h]

theorem discloseResolved_nonzero (keccak256 : ByteArray → String) (effects : List Effect)
    (credential : Obj) (c1 c2 c3 : Bool) (nonce : Nat) (issueText expiryText : String)
    (htruthy : (credential.get "commitment").truthy = true)
    (hne : credential.get "commitment" ≠ JSVal.str HashZero)
    (hi : (credential.get "issueDate").callToString = some issueText)
    (he : (credential.get "expiryDate").callToString = some expiryText) :
    ∃ bundle : ProofBundle,
      bundle.commitment = credential.get "commitment" ∧ bundle.nonce = nonce ∧
      discloseResolved keccak256 effects credential c1 c2 c3 nonce =
        ⟨effects ++
          [.confirm "Include institution name in proof?", .confirm "Include issue date in proof?",
           .confirm "Include expiry date in proof?", .call "createSelectiveDisclosureProof"],
          some bundle⟩ := by
  obtain ⟨data, _, hb⟩ := createSelectiveDisclosureProof_ok keccak256
    [("credentialId", credential.get "id"),
     ("credentialType", credential.get "credentialType"),
     ("institutionName", credential.get "institutionName"),
     ("issueDate", credential.get "issueDate"), ("expiryDate", credential.get "expiryDate"),
     ("student", credential.get "student"), ("issuer", credential.get "issuer"),
     ("commitment", credential.get "commitment")]
    [("showType", .bool true), ("showInstitution", .bool c1),
     ("showIssueDate", .bool c2), ("showExpiryDate", .bool c3)] nonce issueText expiryText hi he
  have hb' : createSelectiveDisclosureProof keccak256
      [("credentialId", credential.get "id"),
       ("credentialType", credential.get "credentialType"),
       ("institutionName", credential.get "institutionName"),
       ("issueDate", credential.get "issueDate"), ("expiryDate", credential.get "expiryDate"),
       ("student", credential.get "student"), ("issuer", credential.get "issuer"),
       ("commitment", credential.get "commitment")]
      [("showType", .bool true), ("showInstitution", .bool c1),
       ("showIssueDate", .bool c2), ("showExpiryDate", .bool c3)] nonce =
      .ok ⟨credential.get "commitment", nonce, keccak256 (toUtf8Bytes data),
        Obj.spread defaultOptions
          [("showType", .bool true), ("showInstitution", .bool c1),
           ("showIssueDate", .bool c2), ("showExpiryDate", .bool c3)]⟩ := hb
  refine ⟨⟨credential.get "commitment", nonce, keccak256 (toUtf8Bytes data),
    Obj.spread defaultOptions
      [("showType", .bool true), ("showInstitution", .bool c1),
       ("showIssueDate", .bool c2), ("showExpiryDate", .bool c3)]⟩, rfl, rfl, ?_⟩
  unfold discloseResolved
  simp only [htruthy, hne, hb']
  simp

/-- C11: `generateZKGProof` discloses only a credential with a commitment.  With the wallet
connected, let `credential` be the object it works on, taken from `storedCredentials` or built
from the record fetched from the ledger.  If its `commitment` is missing (falsy) or equal to
the all-zero hash, the run ends with the no-commitment message, asks no question, does not call
`createSelectiveDisclosureProof` and yields no proof.  If its `commitment` is not zero (and its
dates are present), the run calls `createSelectiveDisclosureProof` and yields a proof bundle
carrying that commitment.  Without a connected wallet the run ends at the connect-wallet alert
and yields no proof either. -/
theorem generateZKGProof_commitment_guard (keccak256 : ByteArray → String)
    (credentialId : JSVal) (stored : Option Obj) (contractGetCredential : Except String Obj)
    (credential : Obj) (c1 c2 c3 : Bool) (nonce : Nat)
    (hres : stored = some credential ∨
      (stored = none ∧ ∃ cred : Obj, contractGetCredential = .ok cred ∧
        fetchedCredential cred = .ok credential)) :
    (((credential.get "commitment").truthy = false ∨
        credential.get "commitment" = JSVal.str HashZero) →
      (generateZKGProof keccak256 true credentialId stored contractGetCredential
        c1 c2 c3 nonce).proof = none ∧
      (generateZKGProof keccak256 true credentialId stored contractGetCredential
        c1 c2 c3 nonce).effects.getLast? =
          some (.alert "This credential does not have a ZKG commitment.") ∧
      Effect.call "createSelectiveDisclosureProof" ∉
        (generateZKGProof keccak256 true credentialId stored contractGetCredential
          c1 c2 c3 nonce).effects) ∧
    (∀ issueText expiryText : String,
      (credential.get "commitment").truthy = true →
      credential.get "commitment" ≠ JSVal.str HashZero →
      (credential.get "issueDate").callToString = some issueText →
      (credential.get "expiryDate").callToString = some expiryText →
      ∃ bundle : ProofBundle,
        (generateZKGProof keccak256 true credentialId stored contractGetCredential
          c1 c2 c3 nonce).proof = some bundle ∧
        bundle.commitment = credential.get "commitment" ∧
        Effect.call "createSelectiveDisclosureProof" ∈
          (generateZKGProof keccak256 true credentialId stored contractGetCredential
            c1 c2 c3 nonce).effects) ∧
    generateZKGProof keccak256 false credentialId stored contractGetCredential c1 c2 c3 nonce =
      ⟨[.alert "Please connect your wallet first!"], none⟩ := by
  have hrun : ∃ effects : List Effect,
      Effect.call "createSelectiveDisclosureProof" ∉ effects ∧
      generateZKGProof keccak256 true credentialId stored contractGetCredential c1 c2 c3 nonce =
        discloseResolved keccak256 effects credential c1 c2 c3 nonce := by
    rcases hres with h | ⟨h, cred, hc, hf⟩
    · exact ⟨[], by simp, by simp [generateZKGProof, h]⟩
    · exact ⟨[.ledger "getCredential" [credentialId]], by simp,
        by simp [generateZKGProof, h, hc, hf]⟩
  obtain ⟨effects, hno, hrun⟩ := hrun
  refine ⟨?_, ?_, by simp [generateZKGProof]⟩
  · intro hzero
    rw [hrun, discloseResolved_zero keccak256 effects credential c1 c2 c3 nonce hzero]
    refine ⟨rfl, by simp, ?_⟩
    simp only [List.mem_append, List.mem_singleton, not_or]
    exact ⟨hno, by simp⟩
  · intro issueText expiryText htruthy hne hi he
    obtain ⟨bundle, hcom, _, hd⟩ := discloseResolved_nonzero keccak256 effects credential
      c1 c2 c3 nonce issueText expiryText htruthy hne hi he
    rw [hrun, hd]
    exact ⟨bundle, rfl, hcom, by simp⟩

theorem generateZKGProof_commitment_guard_witness :
    (generateZKGProof (fun bytes => Nat.repr bytes.size) true (JSVal.str "1")
        (some [("id", JSVal.str "1"), ("commitment", JSVal.str HashZero)])
        (.error "unused") true true true 7).proof = none ∧
      ∃ bundle : ProofBundle,
        (generateZKGProof (fun bytes => Nat.repr bytes.size) true (JSVal.str "2")
          (some [("id", JSVal.str "2"), ("credentialType", JSVal.str "BSc"),
            ("issueDate", JSVal.str "1700000000"), ("expiryDate", JSVal.str "0"),
            ("commitment", JSVal.str "0xC3")])
          (.error "unused") true false false 7).proof = some bundle ∧
        bundle.commitment = JSVal.str "0xC3" := by
  refine ⟨((generateZKGProof_commitment_guard _ (JSVal.str "1") _ (.error "unused")
      [("id", JSVal.str "1"), ("commitment", JSVal.str HashZero)] true true true 7
      (Or.inl rfl)).1 (Or.inr (by decide))).1, ?_⟩
  obtain ⟨bundle, hp, hc, _⟩ := (generateZKGProof_commitment_guard
    (fun bytes => Nat.repr bytes.size) (JSVal.str "2") _ (.error "unused")
    [("id", JSVal.str "2"), ("credentialType", JSVal.str "BSc"),
      ("issueDate", JSVal.str "1700000000"), ("expiryDate", JSVal.str "0"),
      ("commitment", JSVal.str "0xC3")] true false false 7 (Or.inl rfl)).2.1
    "1700000000" "0" (by decide) (by decide) (by decide) (by decide)
  exact ⟨bundle, hp, hc⟩

/-! ## Nonce freshness -/

/-- The payload is a lead that does not depend on the nonce, the decimal text of the nonce, and
the issuer and holder. -/
theorem disclosurePayload_split (f1 f2 f3 f4 : Bool) (t1 t2 t3 t4 c iss st : String) :
    ∃ lead : String, ∀ n : Nat,
      disclosurePayload f1 f2 f3 f4 t1 t2 t3 t4 c n iss st =
        lead ++ (Nat.repr n ++ (iss ++ st)) := by
  refine ⟨String.join (([(f1, t1), (f2, t2), (f3, t3), (f4, t4)].filter Prod.fst).map
    Prod.snd) ++ c, fun n => ?_⟩
  cases f1 <;> cases f2 <;> cases f3 <;> cases f4 <;>
    simp [disclosurePayload, String.join, String.append_assoc]

/-- Payloads that differ only in the nonce are different strings. -/
theorem disclosurePayload_nonce_injective (f1 f2 f3 f4 : Bool)
    (t1 t2 t3 t4 c iss st : String) (n1 n2 : Nat)
    (h : disclosurePayload f1 f2 f3 f4 t1 t2 t3 t4 c n1 iss st =
      disclosurePayload f1 f2 f3 f4 t1 t2 t3 t4 c n2 iss st) : n1 = n2 := by
  obtain ⟨lead, hl⟩ := disclosurePayload_split f1 f2 f3 f4 t1 t2 t3 t4 c iss st
  rw [hl n1, hl n2] at h
  have hd := congrArg String.data h
  simp only [String.data_append] at hd
  have h1 := List.append_cancel_left hd
  have h2 := List.append_cancel_right h1
  exact repr_injective n1 n2 (String.ext h2)

/-- C12: for the same credential and the same policy, two runs of `generateZKProof` that draw
different nonces hash different strings; both return a bundle, the two bundles carry different
nonces, and under a hash that is collision-free on strings their `proofHash` values differ. -/
theorem nonce_freshness (keccak256 : ByteArray → String) (credential disclosureOptions : Obj)
    (n1 n2 : Nat) (issueText expiryText : String)
    (hi : (disclosureOptions.get "showIssueDate").truthy = true →
      (credential.get "issueDate").callToString = some issueText)
    (he : (disclosureOptions.get "showExpiryDate").truthy = true →
      (credential.get "expiryDate").callToString = some expiryText)
    (hn : n1 ≠ n2) :
    ∃ (d1 d2 : String) (b1 b2 : ProofBundle),
      proofData credential disclosureOptions n1 = .ok d1 ∧
      proofData credential disclosureOptions n2 = .ok d2 ∧
      d1 ≠ d2 ∧
      generateZKProof keccak256 credential disclosureOptions n1 = .ok b1 ∧
      generateZKProof keccak256 credential disclosureOptions n2 = .ok b2 ∧
      b1.proofHash = keccak256 (toUtf8Bytes d1) ∧ b2.proofHash = keccak256 (toUtf8Bytes d2) ∧
      b1.nonce ≠ b2.nonce ∧
      ((∀ s t : String, keccak256 (toUtf8Bytes s) = keccak256 (toUtf8Bytes t) → s = t) →
        b1.proofHash ≠ b2.proofHash) := by
  have h1 := proofData_eq_payload credential disclosureOptions n1 issueText expiryText hi he
  have h2 := proofData_eq_payload credential disclosureOptions n2 issueText expiryText hi he
  have hd : disclosurePayload (disclosureOptions.get "showType").truthy
      (disclosureOptions.get "showInstitution").truthy
      (disclosureOptions.get "showIssueDate").truthy
      (disclosureOptions.get "showExpiryDate").truthy
      (credential.get "credentialType").toStr (credential.get "institutionName").toStr
      issueText expiryText (credential.get "commitment").toStr n1
      (credential.get "issuer").toStr (credential.get "student").toStr ≠
    disclosurePayload (disclosureOptions.get "showType").truthy
      (disclosureOptions.get "showInstitution").truthy
      (disclosureOptions.get "showIssueDate").truthy
      (disclosureOptions.get "showExpiryDate").truthy
      (credential.get "credentialType").toStr (credential.get "institutionName").toStr
      issueText expiryText (credential.get "commitment").toStr n2
      (credential.get "issuer").toStr (credential.get "student").toStr :=
    fun h => hn (disclosurePayload_nonce_injective _ _ _ _ _ _ _ _ _ _ _ n1 n2 h)
  refine ⟨_, _, ⟨credential.get "commitment", n1, _, disclosureOptions⟩,
    ⟨credential.get "commitment", n2, _, disclosureOptions⟩, h1, h2, hd, ?_, ?_, rfl, rfl, hn,
    fun hfree h => hd (hfree _ _ h)⟩
  · unfold generateZKProof
    rw [h1]
    rfl
  · unfold generateZKProof
    rw [h2]
    rfl

theorem nonce_freshness_witness :
    ∃ (d1 d2 : String) (b1 b2 : ProofBundle),
      proofData [("credentialType", JSVal.str "BSc"), ("commitment", JSVal.str "0xC3")]
        [("showType", JSVal.bool true)] 41 = .ok d1 ∧
      proofData [("credentialType", JSVal.str "BSc"), ("commitment", JSVal.str "0xC3")]
        [("showType", JSVal.bool true)] 42 = .ok d2 ∧
      d1 ≠ d2 ∧
      generateZKProof (fun bytes => Nat.repr bytes.size)
        [("credentialType", JSVal.str "BSc"), ("commitment", JSVal.str "0xC3")]
        [("showType", JSVal.bool true)] 41 = .ok b1 ∧
      generateZKProof (fun bytes => Nat.repr bytes.size)
        [("credentialType", JSVal.str "BSc"), ("commitment", JSVal.str "0xC3")]
        [("showType", JSVal.bool true)] 42 = .ok b2 ∧
      b1.nonce ≠ b2.nonce := by
  obtain ⟨d1, d2, b1, b2, h1, h2, hd, g1, g2, _, _, hn, _⟩ :=
    nonce_freshness (fun bytes => Nat.repr bytes.size)
      [("credentialType", JSVal.str "BSc"), ("commitment", JSVal.str "0xC3")]
      [("showType", JSVal.bool true)] 41 42 "" ""
      (fun h => absurd h (by decide)) (fun h => absurd h (by decide)) (by decide)
  exact ⟨d1, d2, b1, b2, h1, h2, hd, g1, g2, hn⟩

/-! ## Round trip against the ledger of the specification -/

theorem callToString_eq_toStr (v : JSVal) (s : String) (h : v.callToString = some s) :
    s = v.toStr := by
  cases v <;> simp [JSVal.callToString] at h <;> exact h.symm

/-- The payload reads the text of an optional field only when its flag is set. -/
theorem disclosurePayload_congr (f1 f2 f3 f4 : Bool) (t1 t2 t3 t4 u1 u2 u3 u4 c iss st : String)
    (n : Nat) (h1 : f1 = true → t1 = u1) (h2 : f2 = true → t2 = u2) (h3 : f3 = true → t3 = u3)
    (h4 : f4 = true → t4 = u4) :
    disclosurePayload f1 f2 f3 f4 t1 t2 t3 t4 c n iss st =
      disclosurePayload f1 f2 f3 f4 u1 u2 u3 u4 c n iss st := by
  cases f1 <;> cases f2 <;> cases f3 <;> cases f4 <;> simp_all [disclosurePayload]

/-- The verdict of the specification's verifier on a bundle whose hash is the expected one and
whose commitment resolves to a valid credential of a registered issuer. -/
theorem specVerify_accepts (keccak256 : ByteArray → String) (ledger : Ledger) (now : Int)
    (bundle : ProofBundle) (disclosed credential : Obj) (id : Nat)
    (hhash : bundle.proofHash = keccak256 (toUtf8Bytes (disclosurePayload
      (bundle.disclosedFields.get "showType").truthy
      (bundle.disclosedFields.get "showInstitution").truthy
      (bundle.disclosedFields.get "showIssueDate").truthy
      (bundle.disclosedFields.get "showExpiryDate").truthy
      (disclosed.get "credentialType").toStr (disclosed.get "institutionName").toStr
      (disclosed.get "issueDate").toStr (disclosed.get "expiryDate").toStr
      bundle.commitment.toStr bundle.nonce
      (disclosed.get "issuer").toStr (disclosed.get "student").toStr)))
    (hheld : ledger.getCredentialsByCommitment bundle.commitment = some (id, credential))
    (hstatus : getCredentialStatus credential now = "valid")
    (hreg : ledger.registeredIssuers (credential.get "issuer") = true) :
    specVerify keccak256 ledger now bundle disclosed = ⟨true, some id, none⟩ := by
  unfold specVerify
  simp only [← hhash, hheld, hstatus, hreg]
  simp

/-- Through a ledger call as `ethers` makes it, `verifyZKProof` returns the answered flag with
the credential id as decimal text, or the `catch` result with the message of the rejection. -/
theorem verifyZKProof_wellFormedCall (proof : ProofBundle)
    (call : JSVal → String → Nat → Except String LedgerAnswer) :
    verifyZKProof proof (wellFormedCall call) =
      match call proof.commitment proof.proofHash proof.nonce with
      | .ok answer => .ok ⟨.bool answer.valid, some (Nat.repr answer.credentialId), none⟩
      | .error message => .ok ⟨.bool false, none, some (ErrorMessage.value (.str message))⟩ := by
  unfold verifyZKProof verifyZKProofTry wellFormedCall
  cases call proof.commitment proof.proofHash proof.nonce <;> rfl

/-- When the ledger call resolves to an object whose `credentialId` has a `toString`,
`verifyZKProof` returns the object's `valid` and that text. -/
theorem verifyZKProof_relays (proof : ProofBundle)
    (contractVerifyZKProof : JSVal → String → Nat → Except JSAny JSAny) (answer : Obj)
    (text : String)
    (hcall : contractVerifyZKProof proof.commitment proof.proofHash proof.nonce =
      .ok (JSAny.object answer))
    (htext : (answer.get "credentialId").callToString = some text) :
    verifyZKProof proof contractVerifyZKProof = .ok ⟨answer.get "valid", some text, none⟩ := by
  unfold verifyZKProof verifyZKProofTry
  rw [hcall]
  simp only [JSAny.getProp, htext]

/-- C13, as the code and the specification have it together: round trip.  Let a ledger hold the
credential under its commitment, unrevoked and unexpired at `now`, its issuer registered, and
let `disclosed` be the plaintext handed over with the proof: the credential's value for every
optional field whose flag is set, and its issuer and holder.  Then for every options object
`createSelectiveDisclosureProof` returns a bundle that the ledger-side verification, handed the
whole bundle and that plaintext, accepts with the credential's id; `verifyZKProof` returns
`valid = true` with that id as decimal text for every ledger call that answers so for the
bundle's `commitment`, `proofHash` and `nonce`, in particular for the verification of the
specification when it holds the bundle's policy and the plaintext besides the three values of
the call. -/
theorem disclosure_round_trip (keccak256 : ByteArray → String) (ledger : Ledger) (now : Int)
    (credential options disclosed : Obj) (nonce id : Nat) (issueText expiryText : String)
    (hi : (credential.get "issueDate").callToString = some issueText)
    (he : (credential.get "expiryDate").callToString = some expiryText)
    (hheld : ledger.getCredentialsByCommitment (credential.get "commitment") =
      some (id, credential))
    (hstatus : getCredentialStatus credential now = "valid")
    (hreg : ledger.registeredIssuers (credential.get "issuer") = true)
    (hdisc : ∀ p ∈ [("showType", "credentialType"), ("showInstitution", "institutionName"),
        ("showIssueDate", "issueDate"), ("showExpiryDate", "expiryDate")],
      ((Obj.spread defaultOptions options).get p.1).truthy = true →
        disclosed.get p.2 = credential.get p.2)
    (hissuer : disclosed.get "issuer" = credential.get "issuer")
    (hstudent : disclosed.get "student" = credential.get "student") :
    ∃ bundle : ProofBundle,
      createSelectiveDisclosureProof keccak256 credential options nonce = .ok bundle ∧
      specVerify keccak256 ledger now bundle disclosed = ⟨true, some id, none⟩ ∧
      (∀ contractVerifyZKProof : JSVal → String → Nat → Except JSAny JSAny,
        contractVerifyZKProof bundle.commitment bundle.proofHash bundle.nonce =
          .ok (JSAny.object
            [("valid", .bool true), ("credentialId", .str (Nat.repr id))]) →
        verifyZKProof bundle contractVerifyZKProof =
          .ok ⟨.bool true, some (Nat.repr id), none⟩) ∧
      verifyZKProof bundle
        (wellFormedCall (ledgerContract keccak256 ledger now bundle.disclosedFields disclosed)) =
        .ok ⟨.bool true, some (Nat.repr id), none⟩ := by
  obtain ⟨data, hdata, hb⟩ := createSelectiveDisclosureProof_ok keccak256 credential options
    nonce issueText expiryText hi he
  have hpay := proofData_eq_payload credential (Obj.spread defaultOptions options) nonce
    issueText expiryText (fun _ => hi) (fun _ => he)
  rw [hdata] at hpay
  have hdata' := Except.ok.inj hpay
  have hti := callToString_eq_toStr _ _ hi
  have hte := callToString_eq_toStr _ _ he
  have h1 := hdisc ("showType", "credentialType") (by simp)
  have h2 := hdisc ("showInstitution", "institutionName") (by simp)
  have h3 := hdisc ("showIssueDate", "issueDate") (by simp)
  have h4 := hdisc ("showExpiryDate", "expiryDate") (by simp)
  have hacc : specVerify keccak256 ledger now
      ⟨credential.get "commitment", nonce, keccak256 (toUtf8Bytes data),
        Obj.spread defaultOptions options⟩ disclosed = ⟨true, some id, none⟩ := by
    apply specVerify_accepts keccak256 ledger now _ disclosed credential id _ hheld hstatus hreg
    show keccak256 (toUtf8Bytes data) = _
    rw [hdata', hissuer, hstudent]
    congr 2
    apply disclosurePayload_congr
    · intro h; rw [h1 h]
    · intro h; rw [h2 h]
    · intro h; rw [hti, h3 h]
    · intro h; rw [hte, h4 h]
  refine ⟨_, hb, hacc, ?_, ?_⟩
  · intro contractVerifyZKProof hcall
    exact verifyZKProof_relays _ contractVerifyZKProof _ (Nat.repr id) hcall rfl
  · rw [verifyZKProof_wellFormedCall]
    unfold ledgerContract
    simp only [hacc]
    rfl

theorem disclosure_round_trip_witness :
    ∃ bundle : ProofBundle,
      createSelectiveDisclosureProof (fun bytes => Nat.repr bytes.size)
        [("id", JSVal.str "0"), ("credentialType", JSVal.str "BSc"),
         ("institutionName", JSVal.str "Acme U"), ("issueDate", JSVal.str "1700000000"),
         ("expiryDate", JSVal.str "0"), ("revoked", JSVal.bool false),
         ("student", JSVal.str "0xA1"), ("issuer", JSVal.str "0xB2"),
         ("commitment", JSVal.str "0xC3")]
        [("showInstitution", JSVal.bool true)] 42 = .ok bundle ∧
      verifyZKProof bundle
        (wellFormedCall (ledgerContract (fun bytes => Nat.repr bytes.size)
          ⟨[[("id", JSVal.str "0"), ("credentialType", JSVal.str "BSc"),
             ("institutionName", JSVal.str "Acme U"), ("issueDate", JSVal.str "1700000000"),
             ("expiryDate", JSVal.str "0"), ("revoked", JSVal.bool false),
             ("student", JSVal.str "0xA1"), ("issuer", JSVal.str "0xB2"),
             ("commitment", JSVal.str "0xC3")]],
            fun address => decide (address = JSVal.str "0xB2")⟩
          1700000000000 bundle.disclosedFields
          [("credentialType", JSVal.str "BSc"), ("institutionName", JSVal.str "Acme U"),
           ("issuer", JSVal.str "0xB2"), ("student", JSVal.str "0xA1")])) =
        .ok ⟨.bool true, some "0", none⟩ := by
  obtain ⟨bundle, hb, _, _, hv⟩ := disclosure_round_trip (fun bytes => Nat.repr bytes.size)
    ⟨[[("id", JSVal.str "0"), ("credentialType", JSVal.str "BSc"),
       ("institutionName", JSVal.str "Acme U"), ("issueDate", JSVal.str "1700000000"),
       ("expiryDate", JSVal.str "0"), ("revoked", JSVal.bool false),
       ("student", JSVal.str "0xA1"), ("issuer", JSVal.str "0xB2"),
       ("commitment", JSVal.str "0xC3")]],
      fun address => decide (address = JSVal.str "0xB2")⟩
    1700000000000
    [("id", JSVal.str "0"), ("credentialType", JSVal.str "BSc"),
     ("institutionName", JSVal.str "Acme U"), ("issueDate", JSVal.str "1700000000"),
     ("expiryDate", JSVal.str "0"), ("revoked", JSVal.bool false),
     ("student", JSVal.str "0xA1"), ("issuer", JSVal.str "0xB2"),
     ("commitment", JSVal.str "0xC3")]
    [("showInstitution", JSVal.bool true)]
    [("credentialType", JSVal.str "BSc"), ("institutionName", JSVal.str "Acme U"),
     ("issuer", JSVal.str "0xB2"), ("student", JSVal.str "0xA1")]
    42 0 "1700000000" "0" (by decide) (by decide) (by decide) (by decide) (by decide)
    (by decide) (by decide) (by decide)
  exact ⟨bundle, hb, hv⟩

/-- The first step of the ledger-side verification: a bundle whose `proofHash` is not the hash
recomputed from its policy and the disclosed values is rejected as a mismatch, whatever the
ledger holds. -/
theorem specVerify_mismatch (keccak256 : ByteArray → String) (ledger : Ledger) (now : Int)
    (bundle : ProofBundle) (disclosed : Obj)
    (hne : bundle.proofHash ≠ keccak256 (toUtf8Bytes (disclosurePayload
      (bundle.disclosedFields.get "showType").truthy
      (bundle.disclosedFields.get "showInstitution").truthy
      (bundle.disclosedFields.get "showIssueDate").truthy
      (bundle.disclosedFields.get "showExpiryDate").truthy
      (disclosed.get "credentialType").toStr (disclosed.get "institutionName").toStr
      (disclosed.get "issueDate").toStr (disclosed.get "expiryDate").toStr
      bundle.commitment.toStr bundle.nonce
      (disclosed.get "issuer").toStr (disclosed.get "student").toStr))) :
    specVerify keccak256 ledger now bundle disclosed = ⟨false, none, some Reason.proofMismatch⟩ := by
  unfold specVerify
  simp only [hne, ne_eq, not_false_eq_true, if_true]

/-- C13, as stated, fails: the ledger call of `verifyZKProof` carries `commitment`, `proofHash`
and `nonce` and nothing else, and the verification of the specification, which recomputes the
hash from the bundle's policy and the disclosed values, rejects the honest bundle when it holds
no more than the call carries.  Here the ledger holds the credential unmodified, unrevoked and
unexpired, its issuer registered, and the bundle is the one `createSelectiveDisclosureProof`
returns under the default policy.  It is rejected with policy and plaintext both absent, with
the plaintext read off the ledger's own record and the policy absent, and with the policy
present and the plaintext absent. -/
theorem three_value_call_rejects_honest_bundle :
    ∃ bundle : ProofBundle,
      createSelectiveDisclosureProof (fun bytes => Nat.repr bytes.size)
        [("id", JSVal.str "0"), ("credentialType", JSVal.str "BSc"),
         ("institutionName", JSVal.str "Acme U"), ("issueDate", JSVal.str "1700000000"),
         ("expiryDate", JSVal.str "0"), ("revoked", JSVal.bool false),
         ("student", JSVal.str "0xA1"), ("issuer", JSVal.str "0xB2"),
         ("commitment", JSVal.str "0xC3")] [] 42 = .ok bundle ∧
      Ledger.getCredentialsByCommitment
        ⟨[[("id", JSVal.str "0"), ("credentialType", JSVal.str "BSc"),
           ("institutionName", JSVal.str "Acme U"), ("issueDate", JSVal.str "1700000000"),
           ("expiryDate", JSVal.str "0"), ("revoked", JSVal.bool false),
           ("student", JSVal.str "0xA1"), ("issuer", JSVal.str "0xB2"),
           ("commitment", JSVal.str "0xC3")]],
          fun address => decide (address = JSVal.str "0xB2")⟩ (JSVal.str "0xC3") =
        some (0, [("id", JSVal.str "0"), ("credentialType", JSVal.str "BSc"),
          ("institutionName", JSVal.str "Acme U"), ("issueDate", JSVal.str "1700000000"),
          ("expiryDate", JSVal.str "0"), ("revoked", JSVal.bool false),
          ("student", JSVal.str "0xA1"), ("issuer", JSVal.str "0xB2"),
          ("commitment", JSVal.str "0xC3")]) ∧
      getCredentialStatus
        [("id", JSVal.str "0"), ("credentialType", JSVal.str "BSc"),
         ("institutionName", JSVal.str "Acme U"), ("issueDate", JSVal.str "1700000000"),
         ("expiryDate", JSVal.str "0"), ("revoked", JSVal.bool false),
         ("student", JSVal.str "0xA1"), ("issuer", JSVal.str "0xB2"),
         ("commitment", JSVal.str "0xC3")] 1700000000000 = "valid" ∧
      Ledger.registeredIssuers
        ⟨[[("id", JSVal.str "0"), ("credentialType", JSVal.str "BSc"),
           ("institutionName", JSVal.str "Acme U"), ("issueDate", JSVal.str "1700000000"),
           ("expiryDate", JSVal.str "0"), ("revoked", JSVal.bool false),
           ("student", JSVal.str "0xA1"), ("issuer", JSVal.str "0xB2"),
           ("commitment", JSVal.str "0xC3")]],
          fun address => decide (address = JSVal.str "0xB2")⟩ (JSVal.str "0xB2") = true ∧
      specVerify (fun bytes => Nat.repr bytes.size)
        ⟨[[("id", JSVal.str "0"), ("credentialType", JSVal.str "BSc"),
           ("institutionName", JSVal.str "Acme U"), ("issueDate", JSVal.str "1700000000"),
           ("expiryDate", JSVal.str "0"), ("revoked", JSVal.bool false),
           ("student", JSVal.str "0xA1"), ("issuer", JSVal.str "0xB2"),
           ("commitment", JSVal.str "0xC3")]],
          fun address => decide (address = JSVal.str "0xB2")⟩
        1700000000000 ⟨bundle.commitment, bundle.nonce, bundle.proofHash, []⟩ [] =
        ⟨false, none, some Reason.proofMismatch⟩ ∧
      verifyZKProof bundle
        (wellFormedCall (ledgerContract (fun bytes => Nat.repr bytes.size)
          ⟨[[("id", JSVal.str "0"), ("credentialType", JSVal.str "BSc"),
             ("institutionName", JSVal.str "Acme U"), ("issueDate", JSVal.str "1700000000"),
             ("expiryDate", JSVal.str "0"), ("revoked", JSVal.bool false),
             ("student", JSVal.str "0xA1"), ("issuer", JSVal.str "0xB2"),
             ("commitment", JSVal.str "0xC3")]],
            fun address => decide (address = JSVal.str "0xB2")⟩
          1700000000000 [] [])) =
        .ok ⟨.bool false, some "0", none⟩ ∧
      verifyZKProof bundle
        (wellFormedCall (ledgerContract (fun bytes => Nat.repr bytes.size)
          ⟨[[("id", JSVal.str "0"), ("credentialType", JSVal.str "BSc"),
             ("institutionName", JSVal.str "Acme U"), ("issueDate", JSVal.str "1700000000"),
             ("expiryDate", JSVal.str "0"), ("revoked", JSVal.bool false),
             ("student", JSVal.str "0xA1"), ("issuer", JSVal.str "0xB2"),
             ("commitment", JSVal.str "0xC3")]],
            fun address => decide (address = JSVal.str "0xB2")⟩
          1700000000000 []
          [("id", JSVal.str "0"), ("credentialType", JSVal.str "BSc"),
           ("institutionName", JSVal.str "Acme U"), ("issueDate", JSVal.str "1700000000"),
           ("expiryDate", JSVal.str "0"), ("revoked", JSVal.bool false),
           ("student", JSVal.str "0xA1"), ("issuer", JSVal.str "0xB2"),
           ("commitment", JSVal.str "0xC3")])) =
        .ok ⟨.bool false, some "0", none⟩ ∧
      verifyZKProof bundle
        (wellFormedCall (ledgerContract (fun bytes => Nat.repr bytes.size)
          ⟨[[("id", JSVal.str "0"), ("credentialType", JSVal.str "BSc"),
             ("institutionName", JSVal.str "Acme U"), ("issueDate", JSVal.str "1700000000"),
             ("expiryDate", JSVal.str "0"), ("revoked", JSVal.bool false),
             ("student", JSVal.str "0xA1"), ("issuer", JSVal.str "0xB2"),
             ("commitment", JSVal.str "0xC3")]],
            fun address => decide (address = JSVal.str "0xB2")⟩
          1700000000000 bundle.disclosedFields [])) =
        .ok ⟨.bool false, some "0", none⟩ :=
  ⟨⟨JSVal.str "0xC3", 42, "17", Obj.spread defaultOptions []⟩, rfl, by decide, by decide, by decide,
    rfl, rfl, rfl, rfl⟩

/-! ## What verification reads of a bundle -/

/-- What `verifyZKProof` can return: the object of the `try` path, built from a resolved
answer, or the object of the `catch` path. -/
theorem verifyZKProof_ok_cases (proof : ProofBundle)
    (contractVerifyZKProof : JSVal → String → Nat → Except JSAny JSAny) (result : VerifyResult)
    (hret : verifyZKProof proof contractVerifyZKProof = .ok result) :
    (∃ (answer : JSAny) (text : String),
        contractVerifyZKProof proof.commitment proof.proofHash proof.nonce = .ok answer ∧
        answer.getProp "valid" = .ok result.valid ∧
        result = ⟨result.valid, some text, none⟩) ∨
      (∃ message : ErrorMessage, result = ⟨.bool false, none, some message⟩) := by
  unfold verifyZKProof verifyZKProofTry at hret
  cases hc : contractVerifyZKProof proof.commitment proof.proofHash proof.nonce with
  | error e =>
    simp only [hc] at hret
    cases hm : e.getProp "message" with
    | error thrown => simp [hm] at hret
    | ok message =>
      simp only [hm] at hret
      exact Or.inr ⟨_, (Except.ok.inj hret).symm⟩
  | ok answer =>
    simp only [hc] at hret
    cases hv : answer.getProp "valid" with
    | error thrown =>
      simp only [hv] at hret
      exact Or.inr ⟨_, (Except.ok.inj hret).symm⟩
    | ok valid =>
      cases hi : answer.getProp "credentialId" with
      | error thrown =>
        simp only [hv, hi] at hret
        exact Or.inr ⟨_, (Except.ok.inj hret).symm⟩
      | ok credentialId =>
        cases ht : credentialId.callToString with
        | none =>
          simp only [hv, hi, ht] at hret
          exact Or.inr ⟨_, (Except.ok.inj hret).symm⟩
        | some text =>
          simp only [hv, hi, ht] at hret
          have hr := (Except.ok.inj hret).symm
          subst hr
          exact Or.inl ⟨answer, text, rfl, hv, rfl⟩

/-- C14, as the code has it: `verifyZKProof` sends the ledger the bundle's `commitment`,
`proofHash` and `nonce` and nothing else, so replacing the bundle's `disclosedFields` while
leaving those three unchanged leaves the outcome of verification unchanged, for every ledger
behaviour; a rejection is reported as `valid = false` without a mismatch reason, and through a
ledger call as `ethers` makes it with the answered id as decimal text. -/
theorem verifyZKProof_ignores_disclosedFields (proof : ProofBundle) (disclosedFields : Obj)
    (contractVerifyZKProof : JSVal → String → Nat → Except JSAny JSAny) :
    verifyZKProof { proof with disclosedFields := disclosedFields } contractVerifyZKProof =
      verifyZKProof proof contractVerifyZKProof ∧
    (∀ result : VerifyResult, verifyZKProof proof contractVerifyZKProof = .ok result →
      result.valid = .bool false → result.error = none →
      ∃ text : String, result = ⟨.bool false, some text, none⟩) ∧
    (∀ call : JSVal → String → Nat → Except String LedgerAnswer,
      ∃ result : VerifyResult, verifyZKProof proof (wellFormedCall call) = .ok result ∧
        (result.valid = .bool false → result.error = none →
          ∃ id : Nat, result = ⟨.bool false, some (Nat.repr id), none⟩)) := by
  refine ⟨rfl, ?_, ?_⟩
  · intro result hret hv he
    rcases verifyZKProof_ok_cases proof contractVerifyZKProof result hret with
      ⟨_, text, _, _, hr⟩ | ⟨message, hr⟩
    · exact ⟨text, by rw [hr, hv]⟩
    · rw [hr] at he
      cases he
  · intro call
    rw [verifyZKProof_wellFormedCall]
    cases call proof.commitment proof.proofHash proof.nonce with
    | error message => exact ⟨_, rfl, fun _ he => by cases he⟩
    | ok answer =>
      refine ⟨_, rfl, fun hv _ => ⟨answer.credentialId, ?_⟩⟩
      simp only at hv
      simp only [hv]

/-- For every hash, a bundle accepted by the ledger of the specification is still accepted
after its disclosure flags are replaced and its `proofHash` left alone. -/
theorem tampered_flags_accepted_any_hash :
    ∀ keccak256 : ByteArray → String, ∃ bundle : ProofBundle,
      createSelectiveDisclosureProof keccak256
        [("credentialType", JSVal.str "BSc"), ("institutionName", JSVal.str "Acme U"),
         ("issueDate", JSVal.str "1700000000"), ("expiryDate", JSVal.str "0"),
         ("revoked", JSVal.bool false), ("student", JSVal.str "0xA1"),
         ("issuer", JSVal.str "0xB2"), ("commitment", JSVal.str "0xC3")] [] 42 = .ok bundle ∧
      [("showType", JSVal.bool false), ("showInstitution", JSVal.bool true)] ≠
        bundle.disclosedFields ∧
      ({ bundle with disclosedFields :=
          [("showType", JSVal.bool false), ("showInstitution", JSVal.bool true)] } :
        ProofBundle).proofHash = bundle.proofHash ∧
      verifyZKProof
        { bundle with disclosedFields :=
            [("showType", JSVal.bool false), ("showInstitution", JSVal.bool true)] }
        (wellFormedCall (ledgerContract keccak256
          ⟨[[("credentialType", JSVal.str "BSc"), ("institutionName", JSVal.str "Acme U"),
             ("issueDate", JSVal.str "1700000000"), ("expiryDate", JSVal.str "0"),
             ("revoked", JSVal.bool false), ("student", JSVal.str "0xA1"),
             ("issuer", JSVal.str "0xB2"), ("commitment", JSVal.str "0xC3")]],
            fun address => decide (address = JSVal.str "0xB2")⟩
          1700000000000 (Obj.spread defaultOptions [])
          [("credentialType", JSVal.str "BSc"), ("issuer", JSVal.str "0xB2"),
           ("student", JSVal.str "0xA1")])) =
        .ok ⟨.bool true, some "0", none⟩ := by
  intro keccak256
  obtain ⟨data, hdata, hb⟩ := createSelectiveDisclosureProof_ok keccak256
    [("credentialType", JSVal.str "BSc"), ("institutionName", JSVal.str "Acme U"),
     ("issueDate", JSVal.str "1700000000"), ("expiryDate", JSVal.str "0"),
     ("revoked", JSVal.bool false), ("student", JSVal.str "0xA1"),
     ("issuer", JSVal.str "0xB2"), ("commitment", JSVal.str "0xC3")] [] 42
    "1700000000" "0" (by decide) (by decide)
  have hpay := proofData_eq_payload
    [("credentialType", JSVal.str "BSc"), ("institutionName", JSVal.str "Acme U"),
     ("issueDate", JSVal.str "1700000000"), ("expiryDate", JSVal.str "0"),
     ("revoked", JSVal.bool false), ("student", JSVal.str "0xA1"),
     ("issuer", JSVal.str "0xB2"), ("commitment", JSVal.str "0xC3")]
    (Obj.spread defaultOptions []) 42 "1700000000" "0" (fun _ => by decide) (fun _ => by decide)
  rw [hdata] at hpay
  have hd := Except.ok.inj hpay
  have hne : ([("showType", JSVal.bool false), ("showInstitution", JSVal.bool true)] : Obj) ≠
      Obj.spread defaultOptions [] := by decide
  refine ⟨_, hb, hne, rfl, ?_⟩
  have hheld : Ledger.getCredentialsByCommitment
      ⟨[[("credentialType", JSVal.str "BSc"), ("institutionName", JSVal.str "Acme U"),
         ("issueDate", JSVal.str "1700000000"), ("expiryDate", JSVal.str "0"),
         ("revoked", JSVal.bool false), ("student", JSVal.str "0xA1"),
         ("issuer", JSVal.str "0xB2"), ("commitment", JSVal.str "0xC3")]],
        fun address => decide (address = JSVal.str "0xB2")⟩ (JSVal.str "0xC3") =
      some (0, [("credentialType", JSVal.str "BSc"), ("institutionName", JSVal.str "Acme U"),
        ("issueDate", JSVal.str "1700000000"), ("expiryDate", JSVal.str "0"),
        ("revoked", JSVal.bool false), ("student", JSVal.str "0xA1"),
        ("issuer", JSVal.str "0xB2"), ("commitment", JSVal.str "0xC3")]) := by decide
  have hacc := specVerify_accepts keccak256
    ⟨[[("credentialType", JSVal.str "BSc"), ("institutionName", JSVal.str "Acme U"),
       ("issueDate", JSVal.str "1700000000"), ("expiryDate", JSVal.str "0"),
       ("revoked", JSVal.bool false), ("student", JSVal.str "0xA1"),
       ("issuer", JSVal.str "0xB2"), ("commitment", JSVal.str "0xC3")]],
      fun address => decide (address = JSVal.str "0xB2")⟩
    1700000000000
    ⟨JSVal.str "0xC3", 42, keccak256 (toUtf8Bytes data), Obj.spread defaultOptions []⟩
    [("credentialType", JSVal.str "BSc"), ("issuer", JSVal.str "0xB2"),
     ("student", JSVal.str "0xA1")]
    [("credentialType", JSVal.str "BSc"), ("institutionName", JSVal.str "Acme U"),
     ("issueDate", JSVal.str "1700000000"), ("expiryDate", JSVal.str "0"),
     ("revoked", JSVal.bool false), ("student", JSVal.str "0xA1"),
     ("issuer", JSVal.str "0xB2"), ("commitment", JSVal.str "0xC3")] 0
    (by rw [hd]; rfl) hheld (by decide) (by decide)
  have hcall : ledgerContract keccak256
      ⟨[[("credentialType", JSVal.str "BSc"), ("institutionName", JSVal.str "Acme U"),
         ("issueDate", JSVal.str "1700000000"), ("expiryDate", JSVal.str "0"),
         ("revoked", JSVal.bool false), ("student", JSVal.str "0xA1"),
         ("issuer", JSVal.str "0xB2"), ("commitment", JSVal.str "0xC3")]],
        fun address => decide (address = JSVal.str "0xB2")⟩
      1700000000000 (Obj.spread defaultOptions [])
      [("credentialType", JSVal.str "BSc"), ("issuer", JSVal.str "0xB2"),
       ("student", JSVal.str "0xA1")]
      (JSVal.str "0xC3") (keccak256 (toUtf8Bytes data)) 42 = .ok ⟨true, 0⟩ := by
    unfold ledgerContract
    simp only [hacc]
    rfl
  have hfinal : verifyZKProof
      ⟨JSVal.str "0xC3", 42, keccak256 (toUtf8Bytes data),
        [("showType", JSVal.bool false), ("showInstitution", JSVal.bool true)]⟩
      (wellFormedCall (ledgerContract keccak256
        ⟨[[("credentialType", JSVal.str "BSc"), ("institutionName", JSVal.str "Acme U"),
           ("issueDate", JSVal.str "1700000000"), ("expiryDate", JSVal.str "0"),
           ("revoked", JSVal.bool false), ("student", JSVal.str "0xA1"),
           ("issuer", JSVal.str "0xB2"), ("commitment", JSVal.str "0xC3")]],
          fun address => decide (address = JSVal.str "0xB2")⟩
        1700000000000 (Obj.spread defaultOptions [])
        [("credentialType", JSVal.str "BSc"), ("issuer", JSVal.str "0xB2"),
         ("student", JSVal.str "0xA1")])) = .ok ⟨.bool true, some "0", none⟩ := by
    rw [verifyZKProof_wellFormedCall]
    dsimp only
    rw [hcall]
    rfl
  exact hfinal

/-- C14, as stated, fails: a bundle that the ledger accepts is still accepted after its
disclosure flags are changed and its `proofHash` left alone.  Here the ledger performs the
checks of the specification, holds the credential and was handed the original policy; the
bundle shown afterwards claims that only the institution was disclosed. -/
theorem tampered_flags_still_accepted :
    ∃ bundle : ProofBundle,
      createSelectiveDisclosureProof (fun bytes => Nat.repr bytes.size)
        [("credentialType", JSVal.str "BSc"), ("institutionName", JSVal.str "Acme U"),
         ("issueDate", JSVal.str "1700000000"), ("expiryDate", JSVal.str "0"),
         ("revoked", JSVal.bool false), ("student", JSVal.str "0xA1"),
         ("issuer", JSVal.str "0xB2"), ("commitment", JSVal.str "0xC3")] [] 42 = .ok bundle ∧
      [("showType", JSVal.bool false), ("showInstitution", JSVal.bool true)] ≠
        bundle.disclosedFields ∧
      ({ bundle with disclosedFields :=
          [("showType", JSVal.bool false), ("showInstitution", JSVal.bool true)] } :
        ProofBundle).proofHash = bundle.proofHash ∧
      verifyZKProof
        { bundle with disclosedFields :=
            [("showType", JSVal.bool false), ("showInstitution", JSVal.bool true)] }
        (wellFormedCall (ledgerContract (fun bytes => Nat.repr bytes.size)
          ⟨[[("credentialType", JSVal.str "BSc"), ("institutionName", JSVal.str "Acme U"),
             ("issueDate", JSVal.str "1700000000"), ("expiryDate", JSVal.str "0"),
             ("revoked", JSVal.bool false), ("student", JSVal.str "0xA1"),
             ("issuer", JSVal.str "0xB2"), ("commitment", JSVal.str "0xC3")]],
            fun address => decide (address = JSVal.str "0xB2")⟩
          1700000000000 (Obj.spread defaultOptions [])
          [("credentialType", JSVal.str "BSc"), ("issuer", JSVal.str "0xB2"),
           ("student", JSVal.str "0xA1")])) =
        .ok ⟨.bool true, some "0", none⟩ :=
  tampered_flags_accepted_any_hash (fun bytes => Nat.repr bytes.size)

/-! ## Verification by id: the reason shown -/

/-- C15: in the verify-by-id handler, when the ledger calls succeed and the credential is not
verified, the block shown is the not-verified one and its reason is chosen in the order
revoked, expired, issuer not registered, not valid: the first of these conditions that holds
fixes the reason, and the four reasons are different texts. -/
theorem notVerified_reason_precedence (now : Int) (credential : Obj)
    (isValid isIssuerRegistered : Bool) (id : String)
    (contractRegisteredIssuers : JSVal → Except String Bool)
    (hreg : contractRegisteredIssuers (credential.get "issuer") = .ok isIssuerRegistered)
    (hid : (credential.get "id").callToString = some id)
    (hfail : (isValid && isIssuerRegistered) = false) :
    verifyCredentialSubmit true now (.ok credential) (.ok isValid) contractRegisteredIssuers =
        .notVerified (notVerifiedReason credential isIssuerRegistered now) id credential ∧
      ((credential.get "revoked").truthy = true →
        notVerifiedReason credential isIssuerRegistered now =
          "This credential has been revoked by the issuer.") ∧
      ((credential.get "revoked").truthy = false →
        isExpired (credential.get "expiryDate") now = true →
        notVerifiedReason credential isIssuerRegistered now = "This credential has expired.") ∧
      ((credential.get "revoked").truthy = false →
        isExpired (credential.get "expiryDate") now = false → isIssuerRegistered = false →
        notVerifiedReason credential isIssuerRegistered now =
          "The issuer is not registered in the system.") ∧
      ((credential.get "revoked").truthy = false →
        isExpired (credential.get "expiryDate") now = false → isIssuerRegistered = true →
        notVerifiedReason credential isIssuerRegistered now = "This credential is not valid.") ∧
      ["This credential has been revoked by the issuer.", "This credential has expired.",
        "The issuer is not registered in the system.", "This credential is not valid."].Nodup := by
  refine ⟨?_, ?_, ?_, ?_, ?_, by decide⟩
  · unfold verifyCredentialSubmit
    simp [hreg, hid, hfail]
  · intro h; simp [notVerifiedReason, h]
  · intro h1 h2; simp [notVerifiedReason, h1, h2]
  · intro h1 h2 h3; simp [notVerifiedReason, h1, h2, h3]
  · intro h1 h2 h3; simp [notVerifiedReason, h1, h2, h3]

theorem notVerified_reason_precedence_witness :
    verifyCredentialSubmit true 1700000000001
        (.ok [("id", JSVal.str "1"), ("issuer", JSVal.str "0xB2"),
          ("expiryDate", JSVal.str "1700000000"), ("revoked", JSVal.bool true)])
        (.ok false) (fun _ => .ok false) =
      .notVerified "This credential has been revoked by the issuer." "1"
        [("id", JSVal.str "1"), ("issuer", JSVal.str "0xB2"),
          ("expiryDate", JSVal.str "1700000000"), ("revoked", JSVal.bool true)] :=
  (notVerified_reason_precedence 1700000000001
    [("id", JSVal.str "1"), ("issuer", JSVal.str "0xB2"),
      ("expiryDate", JSVal.str "1700000000"), ("revoked", JSVal.bool true)]
    false false "1" (fun _ => .ok false) rfl (by decide) rfl).1

/-! ## Issuance: the checks that precede the ledger write -/

/-- C16: when a connected principal who is not a registered issuer submits the issuance form,
the handler shows the issuer-not-registered error right after the registration lookup and
returns: it does not call `generateCommitment` and does not call `contract.issueCredential`. -/
theorem issuance_rejects_unregistered (keccak256 : ByteArray → String)
    (isAddress : String → Bool) (dateGetTime : String → Int) (now : Int) (userAddress : String)
    (contractIssueCredential : Except String String) (txWait : Except String Unit)
    (form : IssueForm) :
    issueCredentialSubmit keccak256 isAddress dateGetTime now true userAddress (.ok false)
        contractIssueCredential txWait form =
      [.status "status-message" "Processing...",
       .ledger "registeredIssuers" [.str userAddress],
       .status "status-message error"
        ("Error: Your address is not registered as an issuer. " ++
          "Contact the contract owner to register your institution.")] ∧
    Effect.call "generateCommitment" ∉
      issueCredentialSubmit keccak256 isAddress dateGetTime now true userAddress (.ok false)
        contractIssueCredential txWait form ∧
    ∀ arguments : List JSVal, Effect.ledger "issueCredential" arguments ∉
      issueCredentialSubmit keccak256 isAddress dateGetTime now true userAddress (.ok false)
        contractIssueCredential txWait form := by
  have h : issueCredentialSubmit keccak256 isAddress dateGetTime now true userAddress (.ok false)
        contractIssueCredential txWait form =
      [.status "status-message" "Processing...",
       .ledger "registeredIssuers" [.str userAddress],
       .status "status-message error"
        ("Error: Your address is not registered as an issuer. " ++
          "Contact the contract owner to register your institution.")] := by
    simp [issueCredentialSubmit]
  rw [h]
  refine ⟨rfl, by simp, fun arguments => by simp⟩

/-- C17, as the code has it: when a connected, registered issuer submits the form with a
student address that is not well-formed, the handler shows the invalid-address error and
returns before any hashing and before the ledger write: `generateCommitment` and
`contract.issueCredential` are not called.  The registration lookup
`contract.registeredIssuers` has been made by then; it is the only ledger call of the run. -/
theorem issuance_rejects_malformed_address (keccak256 : ByteArray → String)
    (isAddress : String → Bool) (dateGetTime : String → Int) (now : Int) (userAddress : String)
    (contractIssueCredential : Except String String) (txWait : Except String Unit)
    (form : IssueForm) (haddr : isAddress (jsTrim form.studentAddress) = false) :
    issueCredentialSubmit keccak256 isAddress dateGetTime now true userAddress (.ok true)
        contractIssueCredential txWait form =
      [.status "status-message" "Processing...",
       .ledger "registeredIssuers" [.str userAddress],
       .status "status-message error" "Error: Invalid student wallet address."] ∧
    Effect.call "generateCommitment" ∉
      issueCredentialSubmit keccak256 isAddress dateGetTime now true userAddress (.ok true)
        contractIssueCredential txWait form ∧
    (issueCredentialSubmit keccak256 isAddress dateGetTime now true userAddress (.ok true)
        contractIssueCredential txWait form).filter Effect.isLedgerCall =
      [.ledger "registeredIssuers" [.str userAddress]] := by
  have h : issueCredentialSubmit keccak256 isAddress dateGetTime now true userAddress (.ok true)
        contractIssueCredential txWait form =
      [.status "status-message" "Processing...",
       .ledger "registeredIssuers" [.str userAddress],
       .status "status-message error" "Error: Invalid student wallet address."] := by
    simp [issueCredentialSubmit, haddr]
  rw [h]
  refine ⟨rfl, by simp, rfl⟩

theorem issuance_rejects_malformed_address_witness :
    issueCredentialSubmit (fun bytes => Nat.repr bytes.size) (fun a => a.length == 42)
        (fun _ => 0) 1700000000000 true "0xB2" (.ok true) (.ok "0xTX") (.ok ())
        ⟨" not-an-address ", "BSc", "Acme U", "", ""⟩ =
      [.status "status-message" "Processing...",
       .ledger "registeredIssuers" [.str "0xB2"],
       .status "status-message error" "Error: Invalid student wallet address."] :=
  (issuance_rejects_malformed_address (fun bytes => Nat.repr bytes.size)
    (fun a => a.length == 42) (fun _ => 0) 1700000000000 "0xB2" (.ok "0xTX") (.ok ())
    ⟨" not-an-address ", "BSc", "Acme U", "", ""⟩ (by decide)).1

/-- C17, as stated, fails: the rejection of a malformed address comes after a ledger call.  In
this run of a connected, registered issuer the invalid-address error is preceded by the call of
`contract.registeredIssuers`; and when the principal is not registered the same form is
rejected with the issuer-not-registered error instead. -/
theorem malformed_address_after_ledger_call :
    (issueCredentialSubmit (fun bytes => Nat.repr bytes.size) (fun a => a.length == 42)
        (fun _ => 0) 1700000000000 true "0xB2" (.ok true) (.ok "0xTX") (.ok ())
        ⟨"not-an-address", "BSc", "Acme U", "", ""⟩).any Effect.isLedgerCall = true ∧
    issueCredentialSubmit (fun bytes => Nat.repr bytes.size) (fun a => a.length == 42)
        (fun _ => 0) 1700000000000 true "0xB2" (.ok true) (.ok "0xTX") (.ok ())
        ⟨"not-an-address", "BSc", "Acme U", "", ""⟩ =
      [.status "status-message" "Processing...",
       .ledger "registeredIssuers" [.str "0xB2"],
       .status "status-message error" "Error: Invalid student wallet address."] ∧
    Effect.status "status-message error" "Error: Invalid student wallet address." ∉
      issueCredentialSubmit (fun bytes => Nat.repr bytes.size) (fun a => a.length == 42)
        (fun _ => 0) 1700000000000 true "0xB2" (.ok false) (.ok "0xTX") (.ok ())
        ⟨"not-an-address", "BSc", "Acme U", "", ""⟩ := by
  refine ⟨by decide, by decide, by decide⟩

/-! ## Verification results -/

/-- C18, evaluated at the failing inputs: when the awaited ledger call rejects with `undefined`
or with `null`, the `catch` block's `error.message` throws and `verifyZKProof` raises a
`TypeError` instead of returning a result.  It raises on no other ledger behaviour: a
rejection with any other value gives `valid = false`, `credentialId = null` and the `message`
read off that value, and through a ledger call as `ethers` makes it a resolved answer gives
the ledger's `valid` flag with the credential id as decimal text and a thrown error gives
`valid = false`, `credentialId = null` and the error's message. -/
theorem verifyZKProof_raises_on_nullish_rejection :
    (∀ proof : ProofBundle,
      verifyZKProof proof (fun _ _ _ => .error (JSAny.primitive .undefined)) =
        .error JSError.typeError) ∧
    (∀ proof : ProofBundle,
      verifyZKProof proof (fun _ _ _ => .error (JSAny.primitive .null)) =
        .error JSError.typeError) ∧
    (∀ (proof : ProofBundle)
        (contractVerifyZKProof : JSVal → String → Nat → Except JSAny JSAny),
      (∃ thrown : JSError, verifyZKProof proof contractVerifyZKProof = .error thrown) ↔
        (contractVerifyZKProof proof.commitment proof.proofHash proof.nonce =
            .error (JSAny.primitive .undefined) ∨
          contractVerifyZKProof proof.commitment proof.proofHash proof.nonce =
            .error (JSAny.primitive .null))) ∧
    (∀ (proof : ProofBundle)
        (contractVerifyZKProof : JSVal → String → Nat → Except JSAny JSAny)
        (e : JSAny) (message : JSVal),
      contractVerifyZKProof proof.commitment proof.proofHash proof.nonce = .error e →
      e.getProp "message" = .ok message →
      verifyZKProof proof contractVerifyZKProof =
        .ok ⟨.bool false, none, some (ErrorMessage.value message)⟩) ∧
    (∀ (proof : ProofBundle) (call : JSVal → String → Nat → Except String LedgerAnswer),
      (∀ answer : LedgerAnswer,
        call proof.commitment proof.proofHash proof.nonce = .ok answer →
        verifyZKProof proof (wellFormedCall call) =
          .ok ⟨.bool answer.valid, some (Nat.repr answer.credentialId), none⟩) ∧
      (∀ message : String,
        call proof.commitment proof.proofHash proof.nonce = .error message →
        verifyZKProof proof (wellFormedCall call) =
          .ok ⟨.bool false, none, some (ErrorMessage.value (.str message))⟩)) := by
  refine ⟨fun _ => rfl, fun _ => rfl, ?_, ?_, ?_⟩
  · intro proof contractVerifyZKProof
    unfold verifyZKProof verifyZKProofTry
    cases hc : contractVerifyZKProof proof.commitment proof.proofHash proof.nonce with
    | error e =>
      cases e with
      | object o => simp [JSAny.getProp]
      | primitive v =>
        cases v <;> simp [JSAny.getProp] <;> exact ⟨JSError.typeError, trivial⟩
    | ok answer =>
      simp only [reduceCtorEq, or_self, iff_false, not_exists]
      intro thrown
      cases hv : answer.getProp "valid" with
      | error t => simp
      | ok valid =>
        cases hi : answer.getProp "credentialId" with
        | error t => simp
        | ok credentialId => cases ht : credentialId.callToString <;> simp [ht]
  · intro proof contractVerifyZKProof e message hc hm
    unfold verifyZKProof verifyZKProofTry
    simp only [hc, hm]
  · intro proof call
    refine ⟨fun answer ha => ?_, fun message hm => ?_⟩
    · rw [verifyZKProof_wellFormedCall, ha]
    · rw [verifyZKProof_wellFormedCall, hm]

/-- C19, as the code has it: a failed proof verification carries a reason only when it comes
from the `catch` block, and then it is the error's message.  When the ledger answers
`valid = false` the result of `verifyZKProof` is `valid = false` with the answered id and
nothing else, and the form handler shows one fixed text that names no check. -/
theorem failed_verification_result (proof : ProofBundle)
    (contractVerifyZKProof : JSVal → String → Nat → Except JSAny JSAny) (result : VerifyResult)
    (hret : verifyZKProof proof contractVerifyZKProof = .ok result)
    (hfail : result.valid = .bool false) :
    ((∃ message : ErrorMessage, result = ⟨.bool false, none, some message⟩) ∨
      (∃ (answer : JSAny) (text : String),
        contractVerifyZKProof proof.commitment proof.proofHash proof.nonce = .ok answer ∧
        answer.getProp "valid" = .ok (.bool false) ∧
        result = ⟨.bool false, some text, none⟩)) ∧
    (∀ call : JSVal → String → Nat → Except String LedgerAnswer,
      ∃ typed : VerifyResult, verifyZKProof proof (wellFormedCall call) = .ok typed ∧
        (typed.valid = .bool false →
          ((∃ message : String,
              call proof.commitment proof.proofHash proof.nonce = .error message ∧
              typed = ⟨.bool false, none, some (ErrorMessage.value (.str message))⟩) ∨
            (∃ id : Nat,
              call proof.commitment proof.proofHash proof.nonce = .ok ⟨false, id⟩ ∧
              typed = ⟨.bool false, some (Nat.repr id), none⟩)))) ∧
    ∀ (commitment proofHash nonce : String)
      (formVerifyZKProof : String → String → String → Except String LedgerAnswer)
      (contractGetCredential : Nat → Except String Obj) (id : Nat),
      formVerifyZKProof (jsTrim commitment) (jsTrim proofHash) (jsTrim nonce) = .ok ⟨false, id⟩ →
      verifyZKGSubmit true commitment proofHash nonce formVerifyZKProof contractGetCredential =
        .invalid ("The zero-knowledge proof could not be verified. " ++
          "The proof may be invalid or the credential may not exist.") := by
  refine ⟨?_, ?_, ?_⟩
  · rcases verifyZKProof_ok_cases proof contractVerifyZKProof result hret with
      ⟨answer, text, hc, hv, hr⟩ | ⟨message, hr⟩
    · rw [hfail] at hv hr
      exact Or.inr ⟨answer, text, hc, hv, hr⟩
    · exact Or.inl ⟨message, hr⟩
  · intro call
    rw [verifyZKProof_wellFormedCall]
    cases h : call proof.commitment proof.proofHash proof.nonce with
    | error message => exact ⟨_, rfl, fun _ => Or.inl ⟨message, rfl, rfl⟩⟩
    | ok answer =>
      refine ⟨_, rfl, fun hv => Or.inr ⟨answer.credentialId, ?_, ?_⟩⟩
      · obtain ⟨valid, id⟩ := answer
        simp only [JSVal.bool.injEq] at hv
        subst hv
        rfl
      · simp only [JSVal.bool.injEq] at hv
        simp only [hv]
  · intro commitment proofHash nonce formVerifyZKProof contractGetCredential id h
    simp [verifyZKGSubmit, h]

theorem failed_verification_result_witness :
    verifyZKProof ⟨JSVal.str "0xC3", 42, "0xH", []⟩
        (wellFormedCall (fun _ _ _ => .error "network down")) =
      .ok ⟨.bool false, none, some (ErrorMessage.value (.str "network down"))⟩ ∧
    ((∃ message : ErrorMessage,
        (⟨.bool false, none, some (ErrorMessage.value (.str "network down"))⟩ : VerifyResult) =
          ⟨.bool false, none, some message⟩) ∨
      (∃ (answer : JSAny) (text : String),
        wellFormedCall (fun _ _ _ => .error "network down") (JSVal.str "0xC3") "0xH" 42 =
          .ok answer ∧
        answer.getProp "valid" = .ok (.bool false) ∧
        (⟨.bool false, none, some (ErrorMessage.value (.str "network down"))⟩ : VerifyResult) =
          ⟨.bool false, some text, none⟩)) :=
  ⟨rfl, (failed_verification_result ⟨JSVal.str "0xC3", 42, "0xH", []⟩
    (wellFormedCall (fun _ _ _ => .error "network down"))
    ⟨.bool false, none, some (ErrorMessage.value (.str "network down"))⟩ rfl rfl).1⟩

/-- C19, as stated, fails: when the ledger answers `valid = false`, whatever check failed there,
the result of `verifyZKProof` has no reason at all, so two rejections for different causes give
the same result. -/
theorem rejection_carries_no_reason :
    verifyZKProof ⟨JSVal.str "0xC3", 42, "0xH", []⟩
        (wellFormedCall (fun _ _ _ => .ok ⟨false, 0⟩)) =
        .ok ⟨.bool false, some "0", none⟩ ∧
      ¬ ∀ (proof : ProofBundle) (call : JSVal → String → Nat → Except String LedgerAnswer)
          (result : VerifyResult),
          verifyZKProof proof (wellFormedCall call) = .ok result →
          result.valid = .bool false → result.error ≠ none := by
  refine ⟨rfl, fun h => ?_⟩
  exact h ⟨JSVal.str "0xC3", 42, "0xH", []⟩ (fun _ _ _ => .ok ⟨false, 0⟩)
    ⟨.bool false, some "0", none⟩ rfl rfl rfl

/-! ## Navigation guard -/

/-- C20: the access check of the navigation click handler is a function of the role and the
target page alone.  Role `verifier` is admitted only to `verifier`, role `issuer` only to
`issuer`, role `dao` only to `dao` (so never to `student` or `verifier`), and role `user` is
denied `issuer`, `verifier` and `dao` and admitted elsewhere.  A denied click shows an alert and
leaves the navigation state as it was. -/
theorem navClick_guard (userRole targetPage : JSVal) (pageIds : List String) (s : NavState) :
    (∀ (pageIds' : List String) (s' : NavState),
      (navClick userRole targetPage pageIds s).1 = (navClick userRole targetPage pageIds' s').1) ∧
    (userRole = JSVal.str "verifier" →
      ((navClick userRole targetPage pageIds s).1 = none ↔ targetPage = JSVal.str "verifier")) ∧
    (userRole = JSVal.str "issuer" →
      ((navClick userRole targetPage pageIds s).1 = none ↔ targetPage = JSVal.str "issuer")) ∧
    (userRole = JSVal.str "dao" →
      ((navClick userRole targetPage pageIds s).1 = none ↔ targetPage = JSVal.str "dao")) ∧
    (userRole = JSVal.str "dao" →
      (targetPage = JSVal.str "student" ∨ targetPage = JSVal.str "verifier") →
      (navClick userRole targetPage pageIds s).1 ≠ none) ∧
    (userRole = JSVal.str "user" →
      ((navClick userRole targetPage pageIds s).1 ≠ none ↔
        (targetPage = JSVal.str "issuer" ∨ targetPage = JSVal.str "verifier" ∨
          targetPage = JSVal.str "dao"))) ∧
    ((navClick userRole targetPage pageIds s).1 ≠ none →
      (navClick userRole targetPage pageIds s).2 = s) := by
  refine ⟨?_, ?_, ?_, ?_, ?_, ?_, ?_⟩
  · intro pageIds' s'
    unfold navClick
    split_ifs <;> rfl
  · intro h
    subst h
    unfold navClick
    split_ifs <;> simp_all
  · intro h
    subst h
    unfold navClick
    split_ifs <;> simp_all
  · intro h
    subst h
    unfold navClick
    split_ifs <;> simp_all
  · intro h ht
    subst h
    unfold navClick
    rcases ht with ht | ht <;> subst ht <;> simp
  · intro h
    subst h
    unfold navClick
    split_ifs <;> simp_all
  · unfold navClick
    split_ifs <;> simp

/-! ## Session role -/

theorem step_role_of_not_login (buttonPages pageIds : List String) (s : Session)
    (e : SessionEvent) (h : e.isLogin = false) :
    (s.step buttonPages pageIds e).userRole = s.userRole ∨
      (s.step buttonPages pageIds e).userRole = JSVal.null := by
  cases e with
  | login role => simp [SessionEvent.isLogin] at h
  | navClick targetPage => exact Or.inl rfl
  | connectWallet outcome =>
    refine Or.inl ?_
    cases outcome <;> rfl
  | logout => exact Or.inr rfl
  | accountsChanged accounts =>
    refine Or.inr ?_
    simp [Session.step, logout]

theorem run_role_of_no_login (buttonPages pageIds : List String) (events : List SessionEvent) :
    ∀ s : Session, (∀ e ∈ events, e.isLogin = false) →
      (s.run buttonPages pageIds events).userRole = s.userRole ∨
        (s.run buttonPages pageIds events).userRole = JSVal.null := by
  induction events with
  | nil => intro s _; exact Or.inl rfl
  | cons e rest ih =>
    intro s h
    have he := step_role_of_not_login buttonPages pageIds s e (h e (List.mem_cons_self e rest))
    have hrest := ih (s.step buttonPages pageIds e)
      (fun x hx => h x (List.mem_cons_of_mem e hx))
    have hrun : s.run buttonPages pageIds (e :: rest) =
        (s.step buttonPages pageIds e).run buttonPages pageIds rest := rfl
    rw [hrun]
    rcases hrest with hr | hr
    · rcases he with he | he
      · exact Or.inl (hr.trans he)
      · exact Or.inr (hr.trans he)
    · exact Or.inr hr

/-- C21: the session role changes to a different role only by a login.  A navigation click and
a wallet connection leave `userRole` unchanged, a logout and every account-change event set it
to `null`, a login sets it to the role chosen; so a step that ends in a non-null role different
from the one before is a login, and a run without a login ends in the role it started with or
in `null`. -/
theorem role_changes_only_by_login (buttonPages pageIds : List String) (s : Session) :
    (∀ targetPage : JSVal,
      (s.step buttonPages pageIds (.navClick targetPage)).userRole = s.userRole) ∧
    (∀ outcome : Web3Outcome,
      (s.step buttonPages pageIds (.connectWallet outcome)).userRole = s.userRole) ∧
    (s.step buttonPages pageIds .logout).userRole = JSVal.null ∧
    (∀ accounts : List String,
      (s.step buttonPages pageIds (.accountsChanged accounts)).userRole = JSVal.null) ∧
    (∀ role : JSVal, (s.step buttonPages pageIds (.login role)).userRole = role) ∧
    (∀ e : SessionEvent, (s.step buttonPages pageIds e).userRole ≠ JSVal.null →
      (s.step buttonPages pageIds e).userRole ≠ s.userRole → e.isLogin = true) ∧
    (∀ events : List SessionEvent, (∀ e ∈ events, e.isLogin = false) →
      (s.run buttonPages pageIds events).userRole = s.userRole ∨
        (s.run buttonPages pageIds events).userRole = JSVal.null) := by
  refine ⟨fun _ => rfl, ?_, rfl, ?_, ?_, ?_, ?_⟩
  · intro outcome
    cases outcome <;> rfl
  · intro accounts
    simp [Session.step, logout]
  · intro role
    simp only [Session.step, loginWithRole]
    split_ifs <;> rfl
  · intro e hnull hne
    cases hl : e.isLogin with
    | true => rfl
    | false =>
      rcases step_role_of_not_login buttonPages pageIds s e hl with h | h
      · exact absurd h hne
      · exact absurd h hnull
  · intro events h
    exact run_role_of_no_login buttonPages pageIds events s h

/-! ## Disclosure changes no object -/

theorem read_append_of_lt (heap rest : Heap) (a : Nat) (h : a < heap.length) :
    Heap.read (heap ++ rest) a = Heap.read heap a := by
  simp [Heap.read, List.getElem?_append_left, h]

theorem read_append_length (heap : Heap) (o : Obj) (rest : Heap) :
    Heap.read (heap ++ o :: rest) heap.length = o := by
  simp [Heap.read, List.getElem?_append_right (Nat.le_refl heap.length)]

/-- C22: disclosure has no side effects.  Over an object store, `generateZKProof` returns with
the store as it was, and its bundle refers to the caller's options object itself;
`createSelectiveDisclosureProof` returns with every object that existed before unchanged, the
credential and the caller's options among them, and its bundle refers to a new object, the
defaults overridden by the options.  Neither makes a ledger call, and each returns exactly
when the function on values does, with the same bundle. -/
theorem disclosure_is_pure (keccak256 : ByteArray → String) (heap : Heap)
    (credential options : Nat) (nonce : Nat)
    (hc : credential < heap.length) (ho : options < heap.length) :
    (∀ d : Disclosed, generateZKProofAt keccak256 heap credential options nonce = .ok d →
      d.heap = heap ∧ d.ledgerCalls = [] ∧ d.bundle.disclosedFields = options) ∧
    (∀ d : Disclosed,
      createSelectiveDisclosureProofAt keccak256 heap credential options nonce = .ok d →
      (∀ a : Nat, a < heap.length → d.heap.read a = heap.read a) ∧
      d.ledgerCalls = [] ∧
      heap.length ≤ d.bundle.disclosedFields ∧
      d.heap.read d.bundle.disclosedFields = Obj.spread defaultOptions (heap.read options)) ∧
    (generateZKProofAt keccak256 heap credential options nonce).map
        (fun d => (⟨d.bundle.commitment, d.bundle.nonce, d.bundle.proofHash,
          d.heap.read d.bundle.disclosedFields⟩ : ProofBundle)) =
      generateZKProof keccak256 (heap.read credential) (heap.read options) nonce ∧
    (createSelectiveDisclosureProofAt keccak256 heap credential options nonce).map
        (fun d => (⟨d.bundle.commitment, d.bundle.nonce, d.bundle.proofHash,
          d.heap.read d.bundle.disclosedFields⟩ : ProofBundle)) =
      createSelectiveDisclosureProof keccak256 (heap.read credential) (heap.read options)
        nonce := by
  have hc2 : Heap.read (heap ++ [defaultOptions] ++
      [Obj.spread defaultOptions (heap.read options)]) credential = heap.read credential := by
    rw [List.append_assoc]
    exact read_append_of_lt heap _ credential hc
  have ho1 : Heap.read (heap ++ [defaultOptions]) options = heap.read options :=
    read_append_of_lt heap _ options ho
  have hd1 : Heap.read (heap ++ [defaultOptions]) heap.length = defaultOptions :=
    read_append_length heap defaultOptions []
  have hm : Heap.read (heap ++ [defaultOptions] ++
      [Obj.spread defaultOptions (heap.read options)]) (heap ++ [defaultOptions]).length =
      Obj.spread defaultOptions (heap.read options) :=
    read_append_length (heap ++ [defaultOptions]) _ []
  have hcreate : createSelectiveDisclosureProofAt keccak256 heap credential options nonce =
      generateZKProofAt keccak256
        (heap ++ [defaultOptions] ++ [Obj.spread defaultOptions (heap.read options)])
        credential (heap ++ [defaultOptions]).length nonce := by
    simp only [createSelectiveDisclosureProofAt, Heap.alloc, hd1, ho1]
  refine ⟨?_, ?_, ?_, ?_⟩
  · intro d hd
    unfold generateZKProofAt at hd
    cases hp : proofData (heap.read credential) (heap.read options) nonce with
    | error e => rw [hp] at hd; cases hd
    | ok data =>
      rw [hp] at hd
      cases hd
      exact ⟨rfl, rfl, rfl⟩
  · intro d hd
    rw [hcreate] at hd
    unfold generateZKProofAt at hd
    rw [hc2, hm] at hd
    cases hp : proofData (heap.read credential)
        (Obj.spread defaultOptions (heap.read options)) nonce with
    | error e => rw [hp] at hd; cases hd
    | ok data =>
      rw [hp] at hd
      cases hd
      refine ⟨fun a ha => ?_, rfl, ?_, hm⟩
      · show Heap.read (heap ++ [defaultOptions] ++
          [Obj.spread defaultOptions (heap.read options)]) a = heap.read a
        rw [List.append_assoc]
        exact read_append_of_lt heap _ a ha
      · show heap.length ≤ (heap ++ [defaultOptions]).length
        simp
  · unfold generateZKProofAt generateZKProof
    cases hp : proofData (heap.read credential) (heap.read options) nonce with
    | error e => rfl
    | ok data => rfl
  · rw [hcreate]
    unfold generateZKProofAt createSelectiveDisclosureProof generateZKProof
    rw [hc2, hm]
    cases hp : proofData (heap.read credential)
        (Obj.spread defaultOptions (heap.read options)) nonce with
    | error e =>
      simp only [hp]
      rfl
    | ok data =>
      simp only [hp]
      show Except.ok (ProofBundle.mk _ _ _ (Heap.read _ _)) = Except.ok _
      rw [hm]

theorem disclosure_is_pure_witness :
    (createSelectiveDisclosureProofAt (fun bytes => Nat.repr bytes.size)
        [[("credentialType", JSVal.str "BSc"), ("issueDate", JSVal.str "1700000000"),
          ("expiryDate", JSVal.str "0"), ("student", JSVal.str "0xA1"),
          ("issuer", JSVal.str "0xB2"), ("commitment", JSVal.str "0xC3")],
         [("showInstitution", JSVal.bool true)]] 0 1 42).map
        (fun d => (⟨d.bundle.commitment, d.bundle.nonce, d.bundle.proofHash,
          d.heap.read d.bundle.disclosedFields⟩ : ProofBundle)) =
      createSelectiveDisclosureProof (fun bytes => Nat.repr bytes.size)
        (Heap.read
          [[("credentialType", JSVal.str "BSc"), ("issueDate", JSVal.str "1700000000"),
            ("expiryDate", JSVal.str "0"), ("student", JSVal.str "0xA1"),
            ("issuer", JSVal.str "0xB2"), ("commitment", JSVal.str "0xC3")],
           [("showInstitution", JSVal.bool true)]] 0)
        (Heap.read
          [[("credentialType", JSVal.str "BSc"), ("issueDate", JSVal.str "1700000000"),
            ("expiryDate", JSVal.str "0"), ("student", JSVal.str "0xA1"),
            ("issuer", JSVal.str "0xB2"), ("commitment", JSVal.str "0xC3")],
           [("showInstitution", JSVal.bool true)]] 1) 42 ∧
      ∃ d : Disclosed,
        createSelectiveDisclosureProofAt (fun bytes => Nat.repr bytes.size)
          [[("credentialType", JSVal.str "BSc"), ("issueDate", JSVal.str "1700000000"),
            ("expiryDate", JSVal.str "0"), ("student", JSVal.str "0xA1"),
            ("issuer", JSVal.str "0xB2"), ("commitment", JSVal.str "0xC3")],
           [("showInstitution", JSVal.bool true)]] 0 1 42 = .ok d ∧
        d.heap.read 1 = [("showInstitution", JSVal.bool true)] ∧ d.ledgerCalls = [] ∧
        2 ≤ d.bundle.disclosedFields := by
  have h := disclosure_is_pure (fun bytes => Nat.repr bytes.size)
    [[("credentialType", JSVal.str "BSc"), ("issueDate", JSVal.str "1700000000"),
      ("expiryDate", JSVal.str "0"), ("student", JSVal.str "0xA1"),
      ("issuer", JSVal.str "0xB2"), ("commitment", JSVal.str "0xC3")],
     [("showInstitution", JSVal.bool true)]] 0 1 42 (by decide) (by decide)
  refine ⟨h.2.2.2, _, rfl, ?_⟩
  obtain ⟨hframe, hcalls, hnew, _⟩ := h.2.1 _ rfl
  exact ⟨hframe 1 (by decide), hcalls, hnew⟩

/-! ## Verification by id: when a credential is reported verified -/

/-- C23: in the verify-by-id handler, when the ledger calls succeed, the credential is reported
verified if and only if the ledger's `verifyCredential` result and the registration lookup of
the credential's issuer are both true; if either is false the not-verified block is shown. -/
theorem verified_iff_valid_and_registered (now : Int) (credential : Obj)
    (isValid isIssuerRegistered : Bool) (id : String)
    (contractRegisteredIssuers : JSVal → Except String Bool)
    (hreg : contractRegisteredIssuers (credential.get "issuer") = .ok isIssuerRegistered)
    (hid : (credential.get "id").callToString = some id) :
    (verifyCredentialSubmit true now (.ok credential) (.ok isValid) contractRegisteredIssuers =
        .verified id credential ↔ (isValid = true ∧ isIssuerRegistered = true)) ∧
    ((isValid = false ∨ isIssuerRegistered = false) →
      verifyCredentialSubmit true now (.ok credential) (.ok isValid) contractRegisteredIssuers =
        .notVerified (notVerifiedReason credential isIssuerRegistered now) id credential) ∧
    ((isValid = true ∧ isIssuerRegistered = true) →
      verifyCredentialSubmit true now (.ok credential) (.ok isValid) contractRegisteredIssuers =
        .verified id credential) := by
  unfold verifyCredentialSubmit
  cases isValid <;> cases isIssuerRegistered <;> simp [hreg, hid]

theorem verified_iff_valid_and_registered_witness :
    verifyCredentialSubmit true 1700000000000
        (.ok [("id", JSVal.str "1"), ("issuer", JSVal.str "0xB2"),
          ("expiryDate", JSVal.str "0"), ("revoked", JSVal.bool false)])
        (.ok true) (fun _ => .ok true) =
      .verified "1" [("id", JSVal.str "1"), ("issuer", JSVal.str "0xB2"),
        ("expiryDate", JSVal.str "0"), ("revoked", JSVal.bool false)] :=
  (verified_iff_valid_and_registered 1700000000000
    [("id", JSVal.str "1"), ("issuer", JSVal.str "0xB2"),
      ("expiryDate", JSVal.str "0"), ("revoked", JSVal.bool false)]
    true true "1" (fun _ => .ok true) rfl (by decide)).2.2 ⟨rfl, rfl⟩

/-! ## Conditional injectivity of the commitment preimage -/

/-- C24: for two five-field inputs whose `credentialType`, `institutionName`, decimal text of
`issueDate` and `studentAddress` hold no `|`, the strings hashed by `generateCommitment` are
equal only if all five fields are equal. -/
theorem commitment_preimage_injective (f g : CommitmentFields)
    (hf : '|' ∉ f.credentialType.data ∧ '|' ∉ f.institutionName.data ∧
      '|' ∉ (JSVal.numToString f.issueDate).data ∧ '|' ∉ f.studentAddress.data)
    (hg : '|' ∉ g.credentialType.data ∧ '|' ∉ g.institutionName.data ∧
      '|' ∉ (JSVal.numToString g.issueDate).data ∧ '|' ∉ g.studentAddress.data)
    (h : commitmentData f.toObj = commitmentData g.toObj) :
    f.credentialType = g.credentialType ∧ f.institutionName = g.institutionName ∧
      f.issueDate = g.issueDate ∧ f.studentAddress = g.studentAddress ∧
      f.issuerAddress = g.issuerAddress := by
  have hfg : f = g :=
    commitmentData_injective f g ⟨hf.1, hf.2.1, hf.2.2.2⟩ ⟨hg.1, hg.2.1, hg.2.2.2⟩ h
  subst hfg
  exact ⟨rfl, rfl, rfl, rfl, rfl⟩

theorem commitment_preimage_injective_witness :
    ("BSc" : String) = "BSc" ∧ ("Acme U" : String) = "Acme U" ∧
      (1700000000 : Int) = 1700000000 ∧ ("0xA1" : String) = "0xA1" ∧
      ("0x|B2" : String) = "0x|B2" :=
  commitment_preimage_injective ⟨"BSc", "Acme U", 1700000000, "0xA1", "0x|B2"⟩
    ⟨"BSc", "Acme U", 1700000000, "0xA1", "0x|B2"⟩ (by decide) (by decide) rfl

/-! ## What the proof hash does not determine -/

/-- C25: the hashed string does not determine the policy.  For every hash and nonce, a
credential whose `issueDate` and `expiryDate` have the same text gets the same `proofHash` under
the policy that shows only the issue date and under the one that shows only the expiry date;
and type `AB` shown alone gives the same `proofHash` as type `A` with institution `B`, on two
credentials that share the fixed fields. -/
theorem proofHash_does_not_determine_policy (keccak256 : ByteArray → String) (nonce : Nat) :
    (∃ b1 b2 : ProofBundle,
      generateZKProof keccak256
        [("credentialType", JSVal.str "BSc"), ("institutionName", JSVal.str "Acme U"),
         ("issueDate", JSVal.str "1700000000"), ("expiryDate", JSVal.str "1700000000"),
         ("student", JSVal.str "0xA1"), ("issuer", JSVal.str "0xB2"),
         ("commitment", JSVal.str "0xC3")]
        [("showIssueDate", JSVal.bool true)] nonce = .ok b1 ∧
      generateZKProof keccak256
        [("credentialType", JSVal.str "BSc"), ("institutionName", JSVal.str "Acme U"),
         ("issueDate", JSVal.str "1700000000"), ("expiryDate", JSVal.str "1700000000"),
         ("student", JSVal.str "0xA1"), ("issuer", JSVal.str "0xB2"),
         ("commitment", JSVal.str "0xC3")]
        [("showExpiryDate", JSVal.bool true)] nonce = .ok b2 ∧
      b1.proofHash = b2.proofHash ∧ b1.disclosedFields ≠ b2.disclosedFields) ∧
    (∃ b1 b2 : ProofBundle,
      generateZKProof keccak256
        [("credentialType", JSVal.str "AB"), ("institutionName", JSVal.str "C"),
         ("student", JSVal.str "0xA1"), ("issuer", JSVal.str "0xB2"),
         ("commitment", JSVal.str "0xC3")]
        [("showType", JSVal.bool true)] nonce = .ok b1 ∧
      generateZKProof keccak256
        [("credentialType", JSVal.str "A"), ("institutionName", JSVal.str "B"),
         ("student", JSVal.str "0xA1"), ("issuer", JSVal.str "0xB2"),
         ("commitment", JSVal.str "0xC3")]
        [("showType", JSVal.bool true), ("showInstitution", JSVal.bool true)] nonce = .ok b2 ∧
      b1.proofHash = b2.proofHash ∧ b1.disclosedFields ≠ b2.disclosedFields) := by
  constructor
  · refine ⟨⟨JSVal.str "0xC3", nonce,
        keccak256 (toUtf8Bytes ("1700000000" ++ "0xC3" ++ Nat.repr nonce ++ "0xB2" ++ "0xA1")),
        [("showIssueDate", JSVal.bool true)]⟩,
      ⟨JSVal.str "0xC3", nonce,
        keccak256 (toUtf8Bytes ("1700000000" ++ "0xC3" ++ Nat.repr nonce ++ "0xB2" ++ "0xA1")),
        [("showExpiryDate", JSVal.bool true)]⟩, rfl, rfl, rfl,
      (by decide : ([("showIssueDate", JSVal.bool true)] : Obj) ≠
        [("showExpiryDate", JSVal.bool true)])⟩
  · refine ⟨⟨JSVal.str "0xC3", nonce,
        keccak256 (toUtf8Bytes ("AB" ++ "0xC3" ++ Nat.repr nonce ++ "0xB2" ++ "0xA1")),
        [("showType", JSVal.bool true)]⟩,
      ⟨JSVal.str "0xC3", nonce,
        keccak256 (toUtf8Bytes ("A" ++ "B" ++ "0xC3" ++ Nat.repr nonce ++ "0xB2" ++ "0xA1")),
        [("showType", JSVal.bool true), ("showInstitution", JSVal.bool true)]⟩,
      rfl, rfl, ?_,
      (by decide : ([("showType", JSVal.bool true)] : Obj) ≠
        [("showType", JSVal.bool true), ("showInstitution", JSVal.bool true)])⟩
    show keccak256 (toUtf8Bytes ("AB" ++ "0xC3" ++ Nat.repr nonce ++ "0xB2" ++ "0xA1")) =
      keccak256 (toUtf8Bytes ("A" ++ "B" ++ "0xC3" ++ Nat.repr nonce ++ "0xB2" ++ "0xA1"))
    rfl

/-- The hashed string reads a policy only through the truth of its four disclosure flags. -/
theorem proofData_congr_flags (credential p q : Obj) (nonce : Nat)
    (h : ∀ k ∈ ["showType", "showInstitution", "showIssueDate", "showExpiryDate"],
      (p.get k).truthy = (q.get k).truthy) :
    proofData credential p nonce = proofData credential q nonce := by
  have h1 := h "showType" (by simp)
  have h2 := h "showInstitution" (by simp)
  have h3 := h "showIssueDate" (by simp)
  have h4 := h "showExpiryDate" (by simp)
  unfold proofData
  simp only [h1, h2, h3, h4]

/-- C26: the flags `showStudent` and `showIssuer` have no effect on the proof.  For every
credential and nonce, two policies that agree on `showType`, `showInstitution`, `showIssueDate`
and `showExpiryDate` give the same hashed string and the same `proofHash`, whatever their other
properties; in particular adding `showStudent` and `showIssuer` to a policy changes nothing. -/
theorem showStudent_showIssuer_have_no_effect (keccak256 : ByteArray → String)
    (credential p q : Obj) (nonce : Nat)
    (h : ∀ k ∈ ["showType", "showInstitution", "showIssueDate", "showExpiryDate"],
      (p.get k).truthy = (q.get k).truthy) :
    proofData credential p nonce = proofData credential q nonce ∧
    (generateZKProof keccak256 credential p nonce).map (fun b => b.proofHash) =
      (generateZKProof keccak256 credential q nonce).map (fun b => b.proofHash) ∧
    ∀ showStudent showIssuer : JSVal,
      (generateZKProof keccak256 credential
          (p ++ [("showStudent", showStudent), ("showIssuer", showIssuer)]) nonce).map
          (fun b => b.proofHash) =
        (generateZKProof keccak256 credential p nonce).map (fun b => b.proofHash) := by
  have key : ∀ a b : Obj, proofData credential a nonce = proofData credential b nonce →
      (generateZKProof keccak256 credential a nonce).map (fun x => x.proofHash) =
        (generateZKProof keccak256 credential b nonce).map (fun x => x.proofHash) := by
    intro a b hab
    unfold generateZKProof
    rw [hab]
    cases proofData credential b nonce <;> rfl
  refine ⟨proofData_congr_flags credential p q nonce h,
    key p q (proofData_congr_flags credential p q nonce h), fun showStudent showIssuer => ?_⟩
  apply key
  apply proofData_congr_flags
  intro k hk
  have hget : Obj.get (p ++ [("showStudent", showStudent), ("showIssuer", showIssuer)]) k =
      p.get k := by
    have hs := get_spread p [("showStudent", showStudent), ("showIssuer", showIssuer)] k
    unfold Obj.spread at hs
    rw [hs]
    simp only [List.mem_cons, List.mem_singleton, List.not_mem_nil, or_false] at hk
    rcases hk with hk | hk | hk | hk <;> subst hk <;> rfl
  rw [hget]

theorem showStudent_showIssuer_have_no_effect_witness :
    (generateZKProof (fun bytes => Nat.repr bytes.size)
        [("credentialType", JSVal.str "BSc"), ("student", JSVal.str "0xA1"),
         ("issuer", JSVal.str "0xB2"), ("commitment", JSVal.str "0xC3")]
        [("showType", JSVal.bool true), ("showStudent", JSVal.bool true),
         ("showIssuer", JSVal.bool true)] 42).map (fun b => b.proofHash) =
      (generateZKProof (fun bytes => Nat.repr bytes.size)
        [("credentialType", JSVal.str "BSc"), ("student", JSVal.str "0xA1"),
         ("issuer", JSVal.str "0xB2"), ("commitment", JSVal.str "0xC3")]
        [("showType", JSVal.bool true), ("showStudent", JSVal.bool false)] 42).map
        (fun b => b.proofHash) :=
  (showStudent_showIssuer_have_no_effect (fun bytes => Nat.repr bytes.size)
    [("credentialType", JSVal.str "BSc"), ("student", JSVal.str "0xA1"),
     ("issuer", JSVal.str "0xB2"), ("commitment", JSVal.str "0xC3")]
    [("showType", JSVal.bool true), ("showStudent", JSVal.bool true),
     ("showIssuer", JSVal.bool true)]
    [("showType", JSVal.bool true), ("showStudent", JSVal.bool false)] 42 (by decide)).2.1

/-- C27: the outcome of `verifyZKProof` depends only on the bundle's `commitment`, `proofHash`
and `nonce` and on the ledger: two bundles that agree on the three give the same outcome
against the same ledger, whatever their `disclosedFields` and whatever the ledger call resolves
to or rejects with.  The form handler reads only the three form fields, trimmed. -/
theorem verification_depends_on_three_values (b1 b2 : ProofBundle)
    (contractVerifyZKProof : JSVal → String → Nat → Except JSAny JSAny)
    (hc : b1.commitment = b2.commitment) (hh : b1.proofHash = b2.proofHash)
    (hn : b1.nonce = b2.nonce) :
    verifyZKProof b1 contractVerifyZKProof = verifyZKProof b2 contractVerifyZKProof ∧
    ∀ (configLoaded : Bool) (c1 h1 n1 c2 h2 n2 : String)
      (formVerifyZKProof : String → String → String → Except String LedgerAnswer)
      (contractGetCredential : Nat → Except String Obj),
      jsTrim c1 = jsTrim c2 → jsTrim h1 = jsTrim h2 → jsTrim n1 = jsTrim n2 →
      verifyZKGSubmit configLoaded c1 h1 n1 formVerifyZKProof contractGetCredential =
        verifyZKGSubmit configLoaded c2 h2 n2 formVerifyZKProof contractGetCredential := by
  refine ⟨?_, ?_⟩
  · unfold verifyZKProof verifyZKProofTry
    rw [hc, hh, hn]
  · intro configLoaded c1 h1 n1 c2 h2 n2 formVerifyZKProof contractGetCredential e1 e2 e3
    unfold verifyZKGSubmit
    simp only [e1, e2, e3]

theorem verification_depends_on_three_values_witness :
    verifyZKProof ⟨JSVal.str "0xC3", 42, "0xH", [("showType", JSVal.bool true)]⟩
        (wellFormedCall (fun _ _ nonce => .ok ⟨true, nonce⟩)) =
      verifyZKProof ⟨JSVal.str "0xC3", 42, "0xH", [("showInstitution", JSVal.bool true)]⟩
        (wellFormedCall (fun _ _ nonce => .ok ⟨true, nonce⟩)) :=
  (verification_depends_on_three_values
    ⟨JSVal.str "0xC3", 42, "0xH", [("showType", JSVal.bool true)]⟩
    ⟨JSVal.str "0xC3", 42, "0xH", [("showInstitution", JSVal.bool true)]⟩
    (wellFormedCall (fun _ _ nonce => .ok ⟨true, nonce⟩)) rfl rfl rfl).1

/-! ## Navigation: visibility and guard -/

/-- C28: the visibility rule and the click guard agree.  For every role value, `null` and
unknown roles included, and every page name, `updateNavigationBasedOnRole` shows the button of
the page (display `block`, otherwise `none`) if and only if the click handler admits a click on
it for that role. -/
theorem visibility_agrees_with_guard (userRole pageType : JSVal) (pageIds : List String)
    (s : NavState) :
    (updateNavigationBasedOnRole userRole pageType = "block" ↔
      (navClick userRole pageType pageIds s).1 = none) ∧
    (updateNavigationBasedOnRole userRole pageType = "none" ↔
      (navClick userRole pageType pageIds s).1 ≠ none) := by
  unfold updateNavigationBasedOnRole navClick
  split_ifs <;> simp_all

/-! ## Status over time -/

theorem isExpired_mono (expiryDate : JSVal) (now later : Int) (h : now ≤ later)
    (he : isExpired expiryDate now = true) : isExpired expiryDate later = true := by
  unfold isExpired at he ⊢
  split_ifs at he ⊢ with hg
  cases hnum : expiryDate.toNumber with
  | none => rw [hnum] at he; simp at he
  | some e =>
    rw [hnum] at he
    simp only [decide_eq_true_eq] at he ⊢
    omega

/-- C29: the status is monotone in time.  For every credential and all times `now ≤ later`: a
credential expired at `now` is expired at `later`, a credential revoked at `now` is revoked at
`later`, and a credential valid at `later` is valid at `now`. -/
theorem status_monotone_in_time (credential : Obj) (now later : Int) (h : now ≤ later) :
    (getCredentialStatus credential now = "expired" →
      getCredentialStatus credential later = "expired") ∧
    (getCredentialStatus credential now = "revoked" →
      getCredentialStatus credential later = "revoked") ∧
    (getCredentialStatus credential later = "valid" →
      getCredentialStatus credential now = "valid") := by
  unfold getCredentialStatus
  cases hr : (credential.get "revoked").truthy with
  | true => simp
  | false =>
    cases h1 : isExpired (credential.get "expiryDate") now with
    | true =>
      have h2 := isExpired_mono _ now later h h1
      simp [h2]
    | false =>
      cases h2 : isExpired (credential.get "expiryDate") later <;> simp

theorem status_monotone_in_time_witness :
    (1700000000001 : Int) ≤ 1800000000000 ∧
      getCredentialStatus
        [("revoked", JSVal.bool false), ("expiryDate", JSVal.str "1700000000")]
        1800000000000 = "expired" :=
  ⟨by decide,
    (status_monotone_in_time
      [("revoked", JSVal.bool false), ("expiryDate", JSVal.str "1700000000")]
      1700000000001 1800000000000 (by decide)).1 (by decide)⟩

end Nitshacks
